import Mathlib

/-!
Shallow embedding of the Droner flight-plan generation core
(src/utils/geometry.ts and src/utils/flightPlanGenerator.ts) over the real
numbers, together with theorems settling the specification claims.

JavaScript `number` values are modelled as real numbers; `Infinity`
sentinels are modelled as `⊤` in `WithTop ℝ`; division by zero follows the
Lean convention `x / 0 = 0`.  `Math.atan2` and the float remainder operator
`%` are modelled by explicit definitions below.
-/

noncomputable section

namespace Droner

/-- JS Math.atan2, in the standard four-quadrant form with range (-π, π]. -/
def atan2 (y x : ℝ) : ℝ :=
  if 0 < x then Real.arctan (y / x)
  else if x < 0 ∧ 0 ≤ y then Real.arctan (y / x) + Real.pi
  else if x < 0 ∧ y < 0 then Real.arctan (y / x) - Real.pi
  else if x = 0 ∧ 0 < y then Real.pi / 2
  else if x = 0 ∧ y < 0 then -(Real.pi / 2)
  else 0

/-- Truncation toward zero, as JS number-to-integer truncation. -/
def jsTrunc (x : ℝ) : ℤ :=
  if 0 ≤ x then ⌊x⌋ else ⌈x⌉

/-- The JS `%` operator on numbers: remainder with the sign of the dividend. -/
def jsMod (a b : ℝ) : ℝ :=
  a - b * (jsTrunc (a / b) : ℝ)

/-- types/mission.ts: Coordinate. -/
structure Coordinate where
  lat : ℝ
  lng : ℝ

/-- Axis-aligned bounding box of a polygon, in degrees. -/
structure Bounds where
  north : ℝ
  south : ℝ
  east : ℝ
  west : ℝ

/-- types/mission.ts: Polygon (list of rings: outer ring then holes). -/
structure Polygon where
  coordinates : List (List Coordinate)
  area : ℝ
  bounds : Bounds

/-- types/mission.ts: FlightLine.  The `proximityDirection` field models the
dynamic `_proximityDirection` property attached by `orderLinesByProximity`
(absent = `none`). -/
structure FlightLine where
  id : String
  coordinates : List Coordinate
  heading : ℝ
  length : ℝ
  missionIndex : ℕ
  lineIndex : ℕ
  proximityDirection : Option Bool := none

/-- types/mission.ts: PathSegmentKind. -/
inductive PathSegmentKind where
  | line : PathSegmentKind
  | connector : PathSegmentKind

/-- types/mission.ts: PathSegment. -/
structure PathSegment where
  kind : PathSegmentKind
  coordinates : List Coordinate
  missionIndex : ℕ
  segmentIndex : ℕ
  color : String

/-- types/mission.ts: Mission. -/
structure Mission where
  id : String
  index : ℕ
  flightLines : List FlightLine
  estimatedTime : ℝ
  estimatedPhotos : ℝ
  color : String
  areaPolygon : Option (List Coordinate) := none
  startPoint : Option Coordinate := none
  endPoint : Option Coordinate := none
  pathSegments : Option (List PathSegment) := none

instance : Inhabited Mission :=
  ⟨{ id := "", index := 0, flightLines := [], estimatedTime := 0,
     estimatedPhotos := 0, color := "" }⟩

/-- types/mission.ts: DroneSpecs. -/
structure DroneSpecs where
  sensorWidth : ℝ
  sensorHeight : ℝ
  focalLength : ℝ
  imageWidth : ℝ
  imageHeight : ℝ
  minPhotoInterval : ℝ
  usableBatteryTime : ℝ

/-- types/mission.ts: MissionParameters. -/
structure MissionParameters where
  gsd : ℝ
  frontOverlap : ℝ
  sideOverlap : ℝ
  droneSpeed : ℝ
  maxBatteryTime : ℝ
  manualHeading : Bool := false
  customHeading : Option ℝ := none
  customTurnRadius : Option ℝ := none

/-- types/mission.ts: MissionData. -/
structure MissionData where
  polygon : Polygon
  parameters : MissionParameters
  droneSpecs : DroneSpecs
  calculatedAltitude : ℝ

/-- types/mission.ts: FlightPlan. -/
structure FlightPlan where
  missions : List Mission
  totalTime : ℝ
  totalPhotos : ℝ
  totalArea : ℝ
  batteryCount : ℕ
  optimalHeading : ℝ

/-! ## geometry.ts -/

/-- geometry.ts: calculatePolygonArea (shoelace scaled by 111000 m/degree). -/
def calculatePolygonArea (coordinates : List Coordinate) : ℝ :=
  if coordinates.length < 3 then 0
  else
    let n := coordinates.length
    let area := (List.range n).foldl (fun area i =>
      let ci := coordinates.getD i ⟨0, 0⟩
      let cj := coordinates.getD ((i + 1) % n) ⟨0, 0⟩
      area + ci.lng * cj.lat - cj.lng * ci.lat) 0
    |area| * 0.5 * 111000 * 111000

/-- geometry.ts: calculateDistance (haversine, R = 6371000 m). -/
def calculateDistance (coord1 coord2 : Coordinate) : ℝ :=
  let R : ℝ := 6371000
  let dLat := (coord2.lat - coord1.lat) * Real.pi / 180
  let dLng := (coord2.lng - coord1.lng) * Real.pi / 180
  let a := Real.sin (dLat / 2) * Real.sin (dLat / 2) +
    Real.cos (coord1.lat * Real.pi / 180) * Real.cos (coord2.lat * Real.pi / 180) *
    Real.sin (dLng / 2) * Real.sin (dLng / 2)
  let c := 2 * atan2 (Real.sqrt a) (Real.sqrt (1 - a))
  R * c

/-- geometry.ts: calculateLineSpacing. -/
def calculateLineSpacing (gsd imageWidthPx sideOverlap : ℝ) : ℝ :=
  let gsdMeters := gsd / 100
  let footprintWidthMeters := gsdMeters * imageWidthPx
  footprintWidthMeters * (1 - sideOverlap / 100)

/-- geometry.ts: calculatePhotoInterval. -/
def calculatePhotoInterval (gsd imageHeightPx frontOverlap : ℝ) : ℝ :=
  let gsdMeters := gsd / 100
  let footprintHeightMeters := gsdMeters * imageHeightPx
  footprintHeightMeters * (1 - frontOverlap / 100)

/-- geometry.ts: computeOutCode (Cohen–Sutherland region code). -/
def computeOutCode (x y west east south north : ℝ) : ℕ :=
  (if x < west then 1 else if east < x then 2 else 0) |||
  (if y < south then 4 else if north < y then 8 else 0)

/-- One rewriting step plus recursion for the Cohen–Sutherland clipping loop
(`while (true)` in the source), with fuel for termination. -/
def cohenSutherlandLoop (fuel : ℕ) (x0 y0 x1 y1 west east south north : ℝ) :
    Option (Coordinate × Coordinate) :=
  match fuel with
  | 0 => none
  | fuel + 1 =>
    let outcode0 := computeOutCode x0 y0 west east south north
    let outcode1 := computeOutCode x1 y1 west east south north
    if outcode0 ||| outcode1 = 0 then
      some (⟨y0, x0⟩, ⟨y1, x1⟩)
    else if outcode0 &&& outcode1 ≠ 0 then
      none
    else
      let outcodeOut := if outcode0 ≠ 0 then outcode0 else outcode1
      let dx := x1 - x0
      let dy := y1 - y0
      let x :=
        if outcodeOut &&& 8 ≠ 0 then x0 + dx * (north - y0) / dy
        else if outcodeOut &&& 4 ≠ 0 then x0 + dx * (south - y0) / dy
        else if outcodeOut &&& 2 ≠ 0 then east
        else if outcodeOut &&& 1 ≠ 0 then west
        else 0
      let y :=
        if outcodeOut &&& 8 ≠ 0 then north
        else if outcodeOut &&& 4 ≠ 0 then south
        else if outcodeOut &&& 2 ≠ 0 then y0 + dy * (east - x0) / dx
        else if outcodeOut &&& 1 ≠ 0 then y0 + dy * (west - x0) / dx
        else 0
      if outcodeOut = outcode0 then
        cohenSutherlandLoop fuel x y x1 y1 west east south north
      else
        cohenSutherlandLoop fuel x0 y0 x y west east south north

/-- geometry.ts: cohenSutherlandClip.  The source's unbounded `while (true)`
loop is run with a large fuel; the algorithm clips an endpoint to a boundary
at every iteration and terminates long before the fuel is exhausted. -/
def cohenSutherlandClip (start finish : Coordinate) (bounds : Bounds) :
    Option (Coordinate × Coordinate) :=
  cohenSutherlandLoop 1000 start.lng start.lat finish.lng finish.lat
    bounds.west bounds.east bounds.south bounds.north

/-- geometry.ts: isPointInRing (ray casting over one ring, lng/lat order). -/
def isPointInRing (pt : Coordinate) (ring : List Coordinate) : Bool :=
  (List.range ring.length).foldl (fun inside i =>
    let pi := ring.getD i ⟨0, 0⟩
    let pj := ring.getD ((i + ring.length - 1) % ring.length) ⟨0, 0⟩
    let den := if pj.lat - pi.lat = 0 then (1e-12 : ℝ) else pj.lat - pi.lat
    let intersect :=
      (decide (pi.lat > pt.lat) != decide (pj.lat > pt.lat)) &&
      decide (pt.lng < (pj.lng - pi.lng) * (pt.lat - pi.lat) / den + pi.lng)
    if intersect then !inside else inside) false

/-- geometry.ts: isPointInPolygonRings (outer ring minus hole rings). -/
def isPointInPolygonRings (pt : Coordinate) (rings : List (List Coordinate)) : Bool :=
  match rings with
  | [] => false
  | outer :: holes =>
    if isPointInRing pt outer then
      holes.all (fun hole => !isPointInRing pt hole) &&
      true
    else false

/-- geometry.ts: calculateOffsetPoint (spherical direct geodesic step). -/
def calculateOffsetPoint (point : Coordinate) (bearing dist : ℝ) : Coordinate :=
  let R : ℝ := 6371000
  let lat1 := point.lat * Real.pi / 180
  let lng1 := point.lng * Real.pi / 180
  let brng := bearing * Real.pi / 180
  let lat2 := Real.arcsin (Real.sin lat1 * Real.cos (dist / R) +
    Real.cos lat1 * Real.sin (dist / R) * Real.cos brng)
  let lng2 := lng1 + atan2
    (Real.sin brng * Real.sin (dist / R) * Real.cos lat1)
    (Real.cos (dist / R) - Real.sin lat1 * Real.sin lat2)
  ⟨lat2 * 180 / Real.pi, lng2 * 180 / Real.pi⟩

/-- geometry.ts: generateWaypointsAlongLine. -/
def generateWaypointsAlongLine (start finish : Coordinate) (spacing : ℝ) :
    List Coordinate :=
  let dist := calculateDistance start finish
  let numWaypoints : ℤ := ⌈dist / spacing⌉ + 1
  (List.range numWaypoints.toNat).map (fun i =>
    let r := (i : ℝ) / ((numWaypoints : ℝ) - 1)
    ⟨start.lat + (finish.lat - start.lat) * r,
     start.lng + (finish.lng - start.lng) * r⟩)

/-- One step of the inner segmentation loop of generateFlightLines: the
state is (emitted runs, current run). -/
def interiorRunsStep (inside : Coordinate → Bool)
    (st : List (List Coordinate) × List Coordinate) (wp : Coordinate) :
    List (List Coordinate) × List Coordinate :=
  if inside wp then (st.1, st.2 ++ [wp])
  else if st.2.length > 1 then (st.1 ++ [st.2], [])
  else (st.1, [])

/-- The inner segmentation loop of generateFlightLines: walk the waypoints,
collecting maximal runs of consecutive points satisfying `inside`; a run is
emitted when it has more than one point. -/
def interiorRuns (inside : Coordinate → Bool) (waypoints : List Coordinate) :
    List (List Coordinate) :=
  let st := waypoints.foldl (interiorRunsStep inside) ([], [])
  if st.2.length > 1 then st.1 ++ [st.2] else st.1

/-- geometry.ts: the perpendicular coverage width computed by
generateFlightLines from the polygon bounds and the heading. -/
def coverageWidthFor (polygon : Polygon) (heading : ℝ) : ℝ :=
  let b := polygon.bounds
  let eastWestWidth := calculateDistance ⟨b.north, b.west⟩ ⟨b.north, b.east⟩
  let northSouthWidth := calculateDistance ⟨b.north, b.west⟩ ⟨b.south, b.west⟩
  if heading = 0 ∨ heading = 180 then eastWestWidth else northSouthWidth

/-- geometry.ts: generateSingleCenterLine (fallback for narrow areas). -/
def generateSingleCenterLine (polygon : Polygon) (heading : ℝ) :
    List (List Coordinate) :=
  let b := polygon.bounds
  let centerPoint : Coordinate := ⟨(b.north + b.south) / 2, (b.east + b.west) / 2⟩
  let lineLengthMeters :=
    if heading = 0 ∨ heading = 180 then
      calculateDistance ⟨b.north, b.west⟩ ⟨b.south, b.west⟩
    else
      calculateDistance ⟨b.north, b.west⟩ ⟨b.north, b.east⟩
  let bufferedLength := lineLengthMeters * 1.2
  let halfLength := bufferedLength / 2
  let start := calculateOffsetPoint centerPoint (jsMod (heading + 180) 360) halfLength
  let finish := calculateOffsetPoint centerPoint heading halfLength
  let waypointSpacing := min 5 (lineLengthMeters / 10)
  let waypoints := generateWaypointsAlongLine start finish waypointSpacing
  let interiorWaypoints :=
    waypoints.filter (fun wp => isPointInPolygonRings wp polygon.coordinates)
  if 2 ≤ interiorWaypoints.length then [interiorWaypoints] else []

/-- geometry.ts: the raw parallel-line count of generateFlightLines
(`Math.ceil(coverageWidth / adjustedLineSpacing) + 1`, capped at 1000). -/
def numLinesFor (coverageWidth adjustedLineSpacing : ℝ) : ℤ :=
  let n : ℤ := ⌈coverageWidth / adjustedLineSpacing⌉ + 1
  if 1000 < n then 1000 else n

/-- geometry.ts: the body of the per-line loop of generateFlightLines:
offset a long raw segment from the bounding-box center, clip it to the
bounding rectangle, densify into waypoints and keep the interior runs. -/
def flightLineSegmentsAt (polygon : Polygon) (heading adjustedLineSpacing
    effectiveSpacing coverageWidth : ℝ) (numLines : ℤ) (i : ℕ) :
    List (List Coordinate) :=
  let b := polygon.bounds
  let perpHeading := jsMod (heading + 90) 360
  let offset := ((i : ℝ) - ((numLines : ℝ) - 1) / 2) * effectiveSpacing
  let centerPoint : Coordinate := ⟨(b.north + b.south) / 2, (b.east + b.west) / 2⟩
  let midPoint := calculateOffsetPoint centerPoint perpHeading offset
  let baseLineLengthMeters :=
    if heading = 0 ∨ heading = 180 then
      calculateDistance ⟨b.north, b.west⟩ ⟨b.south, b.west⟩
    else
      calculateDistance ⟨b.north, b.west⟩ ⟨b.north, b.east⟩
  let lineLengthMeters := baseLineLengthMeters + coverageWidth * 0.2
  let halfLength := lineLengthMeters / 2
  let rawStart := calculateOffsetPoint midPoint (jsMod (heading + 180) 360) halfLength
  let rawEnd := calculateOffsetPoint midPoint heading halfLength
  match cohenSutherlandClip rawStart rawEnd b with
  | none => []
  | some (startPoint, endPoint) =>
    let waypointSpacing := min adjustedLineSpacing 5
    let waypoints := generateWaypointsAlongLine startPoint endPoint waypointSpacing
    let segments := interiorRuns
      (fun wp => isPointInPolygonRings wp polygon.coordinates) waypoints
    segments.filter (fun seg => 1 < seg.length)

/-- geometry.ts: generateFlightLines. -/
def generateFlightLines (polygon : Polygon) (heading lineSpacing : ℝ) :
    List (List Coordinate) :=
  let coverageWidth := coverageWidthFor polygon heading
  if coverageWidth ≤ lineSpacing then
    generateSingleCenterLine polygon heading
  else
    let minLineSpacing := max 1 (coverageWidth / 50)
    let adjustedLineSpacing := max lineSpacing minLineSpacing
    let numLines := numLinesFor coverageWidth adjustedLineSpacing
    let effectiveSpacing :=
      if 1 < numLines then coverageWidth / ((numLines : ℝ) - 1) else coverageWidth
    (List.range numLines.toNat).foldl (fun acc i =>
      acc ++ flightLineSegmentsAt polygon heading adjustedLineSpacing
        effectiveSpacing coverageWidth numLines i) []

/-- geometry.ts: the body of the per-line loop of
generateFlightLinesClippedByAOI (double interior test against the strip
area and the master AOI). -/
def clippedFlightLineSegmentsAt (area masterAOI : Polygon) (heading
    adjustedLineSpacing coverageWidth : ℝ) (numLines : ℤ) (i : ℕ) :
    List (List Coordinate) :=
  let b := area.bounds
  let perpHeading := jsMod (heading + 90) 360
  let offset := ((i : ℝ) - ((numLines : ℝ) - 1) / 2) *
    (coverageWidth / max 1 ((numLines : ℝ) - 1))
  let centerPoint : Coordinate := ⟨(b.north + b.south) / 2, (b.east + b.west) / 2⟩
  let midPoint := calculateOffsetPoint centerPoint perpHeading offset
  let baseLineLengthMeters :=
    if heading = 0 ∨ heading = 180 then
      calculateDistance ⟨b.north, b.west⟩ ⟨b.south, b.west⟩
    else
      calculateDistance ⟨b.north, b.west⟩ ⟨b.north, b.east⟩
  let lineLengthMeters := baseLineLengthMeters + coverageWidth * 0.2
  let halfLength := lineLengthMeters / 2
  let rawStart := calculateOffsetPoint midPoint (jsMod (heading + 180) 360) halfLength
  let rawEnd := calculateOffsetPoint midPoint heading halfLength
  match cohenSutherlandClip rawStart rawEnd b with
  | none => []
  | some (startPoint, endPoint) =>
    let waypointSpacing := min adjustedLineSpacing 5
    let waypoints := generateWaypointsAlongLine startPoint endPoint waypointSpacing
    let segments := interiorRuns (fun wp =>
      isPointInPolygonRings wp area.coordinates &&
      isPointInPolygonRings wp masterAOI.coordinates) waypoints
    segments.filter (fun seg => 1 < seg.length)

/-- geometry.ts: generateFlightLinesClippedByAOI. -/
def generateFlightLinesClippedByAOI (area masterAOI : Polygon)
    (heading lineSpacing : ℝ) : List (List Coordinate) :=
  let b := area.bounds
  let coverageWidth := max
    (calculateDistance ⟨b.north, b.west⟩ ⟨b.north, b.east⟩)
    (calculateDistance ⟨b.north, b.west⟩ ⟨b.south, b.west⟩)
  let minLineSpacing := max 1 (coverageWidth / 50)
  let adjustedLineSpacing := max lineSpacing minLineSpacing
  let numLines0 : ℤ := ⌈coverageWidth / adjustedLineSpacing⌉ + 1
  let numLines := if 50 < numLines0 then 50 else numLines0
  (List.range numLines.toNat).foldl (fun acc i =>
    acc ++ clippedFlightLineSegmentsAt area masterAOI heading
      adjustedLineSpacing coverageWidth numLines i) []

/-- geometry.ts: calculateTurnRadius (R = v²/(g tan θ), 20% margin, then
clamped between 5 m and 50 m). -/
def calculateTurnRadius (droneSpeed : ℝ) (bankingAngle : ℝ := 25) : ℝ :=
  let g : ℝ := 9.81
  let bankingRadians := bankingAngle * Real.pi / 180
  let turnRadius := droneSpeed ^ 2 / (g * Real.tan bankingRadians)
  let minRadius := max (turnRadius * 1.2) 5
  let maxRadius := min minRadius 50
  maxRadius

/-- geometry.ts: the first normalization loop of generateOptimizedTurn
(`while (turnAngle > 180) turnAngle -= 360`). -/
def normHigh (a : ℝ) : ℝ :=
  if h : 180 < a then normHigh (a - 360) else a
termination_by (⌈a / 360⌉).toNat
decreasing_by
  have h1 : (0 : ℤ) < ⌈a / 360⌉ := by
    rw [Int.lt_ceil]
    push_cast
    linarith
  have h2 : ⌈(a - 360) / 360⌉ = ⌈a / 360⌉ - 1 := by
    rw [sub_div, div_self (by norm_num : (360 : ℝ) ≠ 0), Int.ceil_sub_one]
  rw [h2]
  omega

/-- geometry.ts: the second normalization loop of generateOptimizedTurn
(`while (turnAngle < -180) turnAngle += 360`). -/
def normLow (a : ℝ) : ℝ :=
  if h : a < -180 then normLow (a + 360) else a
termination_by (⌈-a / 360⌉).toNat
decreasing_by
  have h1 : (0 : ℤ) < ⌈-a / 360⌉ := by
    rw [Int.lt_ceil]
    push_cast
    linarith
  have h2 : ⌈-(a + 360) / 360⌉ = ⌈-a / 360⌉ - 1 := by
    rw [show -(a + 360) = -a - 360 by ring, sub_div,
      div_self (by norm_num : (360 : ℝ) ≠ 0), Int.ceil_sub_one]
  rw [h2]
  omega

/-- geometry.ts: generateUTurn. -/
def generateUTurn (startPoint endPoint : Coordinate) (turnRadius heading : ℝ)
    (polygon : Polygon) : List Coordinate :=
  let perpHeading := jsMod (heading + 90) 360
  let leftTurnCenter := calculateOffsetPoint startPoint perpHeading turnRadius
  let rightTurnCenter :=
    calculateOffsetPoint startPoint (jsMod (perpHeading + 180) 360) turnRadius
  let leftInside := isPointInPolygonRings leftTurnCenter polygon.coordinates
  let rightInside := isPointInPolygonRings rightTurnCenter polygon.coordinates
  let choice : Coordinate × ℝ :=
    if leftInside && !rightInside then (leftTurnCenter, 1)
    else if rightInside && !leftInside then (rightTurnCenter, -1)
    else if calculateDistance leftTurnCenter endPoint <
        calculateDistance rightTurnCenter endPoint then (leftTurnCenter, 1)
    else (rightTurnCenter, -1)
  let turnCenter := choice.1
  let turnDirection := choice.2
  let numArcPoints : ℤ := max 6 ⌊Real.pi * turnRadius / 10⌋
  let arcPoints := (List.range numArcPoints.toNat).filterMap (fun i0 =>
    let i : ℕ := i0 + 1
    let angle := ((i : ℝ) / (numArcPoints : ℝ)) * Real.pi * turnDirection
    let arcHeading := heading + angle * 180 / Real.pi
    let arcPoint := calculateOffsetPoint turnCenter arcHeading turnRadius
    if isPointInPolygonRings arcPoint polygon.coordinates then some arcPoint
    else none)
  startPoint :: (arcPoints ++ [endPoint])

/-- geometry.ts: generateSmoothTurn. -/
def generateSmoothTurn (startPoint endPoint : Coordinate)
    (turnRadius startHeading endHeading : ℝ) (polygon : Polygon) :
    List Coordinate :=
  let directDistance := calculateDistance startPoint endPoint
  if directDistance < turnRadius then [startPoint, endPoint]
  else
    let numPoints : ℕ := 3
    let mids := (List.range (numPoints - 1)).map (fun i0 =>
      let i : ℕ := i0 + 1
      let r := (i : ℝ) / (numPoints : ℝ)
      let linearPoint : Coordinate :=
        ⟨startPoint.lat + (endPoint.lat - startPoint.lat) * r,
         startPoint.lng + (endPoint.lng - startPoint.lng) * r⟩
      let curveOffset := Real.sin (r * Real.pi) * (turnRadius * 0.3)
      let perpHeading := jsMod (startHeading + 90) 360
      let curvedPoint := calculateOffsetPoint linearPoint perpHeading curveOffset
      if isPointInPolygonRings curvedPoint polygon.coordinates then curvedPoint
      else linearPoint)
    startPoint :: (mids ++ [endPoint])

/-- geometry.ts: generateOptimizedTurn (dispatch on the heading delta
normalized into [-180, 180]). -/
def generateOptimizedTurn (line1End line2Start : Coordinate)
    (line1Heading line2Heading turnRadius : ℝ) (polygon : Polygon) :
    List Coordinate :=
  let turnAngle := normLow (normHigh (line2Heading - line1Heading))
  if |turnAngle| < 30 then [line1End, line2Start]
  else if 150 < |turnAngle| then
    generateUTurn line1End line2Start turnRadius line1Heading polygon
  else
    generateSmoothTurn line1End line2Start turnRadius line1Heading
      line2Heading polygon

/-! ## flightPlanGenerator.ts -/

instance : Inhabited FlightLine :=
  ⟨{ id := "", coordinates := [], heading := 0, length := 0,
     missionIndex := 0, lineIndex := 0 }⟩

instance : Inhabited PathSegment :=
  ⟨{ kind := .line, coordinates := [], missionIndex := 0, segmentIndex := 0,
     color := "" }⟩

instance : DecidableEq Coordinate := Classical.decEq _

instance : DecidableEq FlightLine := Classical.decEq _

/-- flightPlanGenerator.ts: calculateLineLength (sum of consecutive
haversine distances). -/
def calculateLineLength (coordinates : List Coordinate) : ℝ :=
  (coordinates.zip coordinates.tail).foldl
    (fun total p => total + calculateDistance p.1 p.2) 0

/-- flightPlanGenerator.ts: the estimateTimeForStrip closure of
partitionAOIIntoPolygonMissions (returns the estimated minutes). -/
def estimateTimeForStrip (lineSpacing alongHeadingLength droneSpeed
    photoInterval stripWidthM : ℝ) : ℝ :=
  let numLines : ℤ := max 1 (⌈stripWidthM / lineSpacing⌉ + 1)
  let totalLength := (numLines : ℝ) * alongHeadingLength
  let flightTime := totalLength / droneSpeed / 60
  let photoCount : ℤ := ⌈totalLength / photoInterval⌉
  let photoTime := (photoCount : ℝ) * 2 / 60
  let turnTime := (numLines : ℝ) * 0.5
  flightTime + photoTime + turnTime

/-- flightPlanGenerator.ts: the findStripWidthForBattery closure of
partitionAOIIntoPolygonMissions (size-based heuristics, then a 20-step
binary search over the strip width). -/
def findStripWidthForBattery (lineSpacing alongHeadingLength droneSpeed
    photoInterval batteryTime maxWidthM : ℝ) : ℝ :=
  let est := estimateTimeForStrip lineSpacing alongHeadingLength droneSpeed
    photoInterval
  let maxLinesPerBattery : ℤ := ⌊batteryTime / 0.5⌋
  let maxStripWidth := max lineSpacing (((maxLinesPerBattery : ℝ) - 1) * lineSpacing)
  if 2000 < maxWidthM then
    let targetMissions : ℤ := max 3 ⌈maxWidthM / 800⌉
    let forcedWidth := max (lineSpacing * 2) (maxWidthM / (targetMissions : ℝ))
    min forcedWidth maxStripWidth
  else
    let search :=
      let lo0 := max lineSpacing (min (lineSpacing * 2) (maxWidthM * 0.1))
      let hi0 := max lo0 (min maxWidthM maxStripWidth)
      let st := (List.range 20).foldl (fun (st : ℝ × ℝ × ℝ) _ =>
        let mid := (st.1 + st.2.1) / 2
        if est mid ≤ batteryTime then (mid, st.2.1, mid)
        else (st.1, mid, st.2.2)) (lo0, hi0, lo0)
      min st.2.2 maxStripWidth
    if 500 < maxWidthM then
      if est maxWidthM ≤ batteryTime then maxWidthM
      else if est (maxWidthM / 2) ≤ batteryTime then maxWidthM / 2
      else search
    else
      if est maxWidthM ≤ batteryTime then maxWidthM
      else search

/-- flightPlanGenerator.ts: createMissionWithArea. -/
def createMissionWithArea (flightLines : List FlightLine) (index : ℕ)
    (color : String) (droneSpeed photoInterval : ℝ)
    (areaRing : List Coordinate) : Mission :=
  let estimatedTime := flightLines.foldl (fun sum line =>
    let flightTime := line.length / droneSpeed / 60
    let photoCount : ℤ := ⌈line.length / photoInterval⌉
    let photoTime := (photoCount : ℝ) * 2 / 60
    sum + flightTime + photoTime + 0.5) 0
  let estimatedPhotos := flightLines.foldl (fun sum line =>
    sum + ((⌈line.length / photoInterval⌉ : ℤ) : ℝ)) 0
  let longest := flightLines.foldl (fun (acc : Option FlightLine) fl =>
    match acc with
    | none => some fl
    | some l => if l.length < fl.length then some fl else some l) none
  let startPoint := longest.bind (fun l => l.coordinates.head?)
  let endPoint := longest.bind (fun l =>
    if 1 < l.coordinates.length then l.coordinates.getLast? else none)
  { id := "mission-" ++ toString index, index := index,
    flightLines := flightLines, estimatedTime := estimatedTime,
    estimatedPhotos := estimatedPhotos, color := color,
    areaPolygon := some areaRing, startPoint := startPoint,
    endPoint := endPoint, pathSegments := none }

/-- flightPlanGenerator.ts: buildSerpentinePath (alternating-direction path
over the lines sorted by lineIndex, with gap-capped straight connectors). -/
def buildSerpentinePath (lines : List FlightLine) (missionIndex : ℕ)
    (color : String) : List PathSegment :=
  if lines = [] then []
  else
    let ordered := lines.mergeSort (fun a b => decide (a.lineIndex ≤ b.lineIndex))
    let spacingSamples := (List.range (ordered.length - 1)).map (fun i =>
      calculateDistance ((ordered.getD i default).coordinates.headD ⟨0, 0⟩)
        ((ordered.getD (i + 1) default).coordinates.headD ⟨0, 0⟩))
    let avgSpacing :=
      if 0 < spacingSamples.length then
        spacingSamples.foldl (· + ·) 0 / (spacingSamples.length : ℝ)
      else 10
    let connectorMaxGap := max (3 * avgSpacing) 20
    let st := (List.range ordered.length).foldl
      (fun (st : List PathSegment × ℕ) i =>
        let line := ordered.getD i default
        let forward := i % 2 = 0
        let coords := if forward then line.coordinates else line.coordinates.reverse
        let st1 : List PathSegment × ℕ :=
          (st.1 ++ [⟨.line, coords, missionIndex, st.2, color⟩], st.2 + 1)
        if i < ordered.length - 1 then
          let next := ordered.getD (i + 1) default
          let currEnd := coords.getLastD ⟨0, 0⟩
          let nextStart :=
            if (i + 1) % 2 = 0 then next.coordinates.headD ⟨0, 0⟩
            else next.coordinates.getLastD ⟨0, 0⟩
          let gap := calculateDistance currEnd nextStart
          if gap ≤ connectorMaxGap then
            (st1.1 ++ [⟨.connector, [currEnd, nextStart], missionIndex, st1.2, color⟩],
             st1.2 + 1)
          else st1
        else st1) ([], 0)
    st.1

/-- flightPlanGenerator.ts: getLineStartPoint. -/
def getLineStartPoint (line : FlightLine) (reverse : Bool) : Coordinate :=
  if reverse then line.coordinates.getLastD ⟨0, 0⟩
  else line.coordinates.headD ⟨0, 0⟩

/-- flightPlanGenerator.ts: getLineEndPoint. -/
def getLineEndPoint (line : FlightLine) (reverse : Bool) : Coordinate :=
  if reverse then line.coordinates.headD ⟨0, 0⟩
  else line.coordinates.getLastD ⟨0, 0⟩

/-- The inner candidate search of orderLinesByProximity: the unvisited line
and direction whose start point is nearest to `current` (strict improvement,
first-wins ties, directions tried in the order [forward, reverse]). -/
def nearestCandidate (current : Coordinate) (rem : List FlightLine) :
    Option (FlightLine × Bool × ℝ) :=
  rem.foldl (fun acc line =>
    [false, true].foldl (fun (acc : Option (FlightLine × Bool × ℝ)) direction =>
      let d := calculateDistance current (getLineStartPoint line direction)
      match acc with
      | none => some (line, direction, d)
      | some (bl, bd, bdist) =>
        if d < bdist then some (line, direction, d) else some (bl, bd, bdist)) acc)
    none

/-- The start-candidate scoring loop of orderLinesByProximity.  The source
iterates `for (let i = 0; i < tempRemaining.length; i++)` while splicing
elements out of `tempRemaining`, so the index is checked against the
shrinking length each step; this is modelled by carrying `i` explicitly. -/
def simulateFrom (fuel i : ℕ) (rem : List FlightLine) (current : Coordinate)
    (total : ℝ) : ℝ :=
  match fuel with
  | 0 => total
  | fuel + 1 =>
    if i < rem.length then
      match nearestCandidate current rem with
      | some (line, direction, d) =>
        simulateFrom fuel (i + 1) (rem.erase line)
          (getLineEndPoint line direction) (total + d)
      | none => simulateFrom fuel (i + 1) rem current total
    else total

/-- A JS `Map<string, boolean>` used for line directions: `set` prepends
(overwriting on lookup), `get` finds the most recent binding. -/
def mapGet (m : List (String × Bool)) (k : String) : Option Bool :=
  (m.find? (fun p => decide (p.1 = k))).map (fun p => p.2)

/-- The greedy chaining loop of orderLinesByProximity (phase 2): repeatedly
append the nearest unvisited line, recording its traversal direction. -/
def chainLoop (fuel : ℕ) (remaining : List FlightLine)
    (currentLine : FlightLine) (dirs : List (String × Bool))
    (ordered : List FlightLine) : List FlightLine × List (String × Bool) :=
  match fuel with
  | 0 => (ordered, dirs)
  | fuel + 1 =>
    if remaining.isEmpty then (ordered, dirs)
    else
      let currentEnd := getLineEndPoint currentLine
        ((mapGet dirs currentLine.id).getD false)
      match nearestCandidate currentEnd remaining with
      | some (line, direction, _) =>
        chainLoop fuel (remaining.eraseP (fun l => decide (l.id = line.id)))
          line ((line.id, direction) :: dirs) (ordered ++ [line])
      | none => (ordered, dirs)

/-- flightPlanGenerator.ts: orderLinesByProximity (multi-start scoring, then
nearest-neighbor chaining; records each line's chosen direction in the
`proximityDirection` field). -/
def orderLinesByProximity (lines : List FlightLine)
    (reverseFirstLine : Bool) : List FlightLine :=
  if lines.length ≤ 1 then lines
  else
    let best := lines.foldl (fun acc startLine =>
      [false, true].foldl (fun (acc : Option (FlightLine × Bool × ℝ)) startDirection =>
        let tempRemaining := lines.filter (fun l => decide (l.id ≠ startLine.id))
        let total := simulateFrom (tempRemaining.length + 1) 0 tempRemaining
          (getLineEndPoint startLine startDirection) 0
        match acc with
        | none => some (startLine, startDirection, total)
        | some (bl, bd, bt) =>
          if total < bt then some (startLine, startDirection, total)
          else some (bl, bd, bt)) acc) none
    let bestStartLine := match best with
      | some (l, _, _) => l
      | none => lines.headD default
    let bestStartDirection := match best with
      | some (_, d, _) => d
      | none => reverseFirstLine
    let remaining0 := lines.eraseP (fun l => decide (l.id = bestStartLine.id))
    let st := chainLoop (lines.length + 1) remaining0 bestStartLine
      [(bestStartLine.id, bestStartDirection)] [bestStartLine]
    st.1.map (fun line => { line with proximityDirection := mapGet st.2 line.id })

/-- flightPlanGenerator.ts: buildSerpentinePathOptimized (proximity-ordered
lines with optimized turn connectors when the AOI polygon is available). -/
def buildSerpentinePathOptimized (lines : List FlightLine) (missionIndex : ℕ)
    (color : String) (reverseFirstLine : Bool) (droneSpeed : ℝ)
    (polygon : Option Polygon) : List PathSegment :=
  if lines = [] then []
  else
    let ordered := orderLinesByProximity lines reverseFirstLine
    let baseTurnRadius := calculateTurnRadius droneSpeed
    let avgLineSpacing :=
      if 1 < lines.length then
        ((List.range lines.length).foldl (fun sum i =>
          if i = 0 then 0
          else sum + calculateDistance
            ((lines.getD i default).coordinates.getLastD ⟨0, 0⟩)
            ((lines.getD (i - 1) default).coordinates.headD ⟨0, 0⟩)) 0) /
          ((lines.length : ℝ) - 1)
      else 50
    let turnRadius := min baseTurnRadius (avgLineSpacing * 0.8)
    let spacingSamples := (List.range (ordered.length - 1)).map (fun i =>
      calculateDistance ((ordered.getD i default).coordinates.headD ⟨0, 0⟩)
        ((ordered.getD (i + 1) default).coordinates.headD ⟨0, 0⟩))
    let avgSpacing :=
      if 0 < spacingSamples.length then
        spacingSamples.foldl (· + ·) 0 / (spacingSamples.length : ℝ)
      else 10
    let connectorMaxGap := max (3 * avgSpacing) 50
    let shouldRev := fun (l : FlightLine) (i : ℕ) =>
      match l.proximityDirection with
      | some d => d
      | none =>
        if reverseFirstLine then decide (i % 2 = 0) else decide (i % 2 = 1)
    let st := (List.range ordered.length).foldl
      (fun (st : List PathSegment × ℕ) i =>
        let line := ordered.getD i default
        let coords :=
          if shouldRev line i then line.coordinates.reverse else line.coordinates
        let st1 : List PathSegment × ℕ :=
          (st.1 ++ [⟨.line, coords, missionIndex, st.2, color⟩], st.2 + 1)
        if i < ordered.length - 1 then
          let next := ordered.getD (i + 1) default
          let currEnd := coords.getLastD ⟨0, 0⟩
          let nextStart :=
            if shouldRev next (i + 1) then next.coordinates.getLastD ⟨0, 0⟩
            else next.coordinates.headD ⟨0, 0⟩
          let gap := calculateDistance currEnd nextStart
          if gap ≤ connectorMaxGap then
            match polygon with
            | some p =>
              let wps := generateOptimizedTurn currEnd nextStart line.heading
                next.heading turnRadius p
              if 2 < wps.length then
                (st1.1 ++ [⟨.connector, wps, missionIndex, st1.2, color⟩], st1.2 + 1)
              else
                (st1.1 ++ [⟨.connector, [currEnd, nextStart], missionIndex, st1.2, color⟩],
                 st1.2 + 1)
            | none =>
              (st1.1 ++ [⟨.connector, [currEnd, nextStart], missionIndex, st1.2, color⟩],
               st1.2 + 1)
          else st1
        else st1) ([], 0)
    st.1

/-- flightPlanGenerator.ts: ringBounds (inner helper of
packMissionsByBattery). -/
def ringBounds (ring : Option (List Coordinate)) : Option Bounds :=
  match ring with
  | none => none
  | some [] => none
  | some (c :: cs) => some (cs.foldl (fun (b : Bounds) p =>
      ⟨max b.north p.lat, min b.south p.lat, max b.east p.lng, min b.west p.lng⟩)
      ⟨c.lat, c.lat, c.lng, c.lng⟩)

/-- flightPlanGenerator.ts: rectRingFromBounds (inner helper of
packMissionsByBattery). -/
def rectRingFromBounds (b : Bounds) : List Coordinate :=
  [⟨b.north, b.west⟩, ⟨b.north, b.east⟩, ⟨b.south, b.east⟩,
   ⟨b.south, b.west⟩, ⟨b.north, b.west⟩]

/-- flightPlanGenerator.ts: the recompute closure of packMissionsByBattery
(rebuild a merged mission and its serpentine path). -/
def recomputeMission (lines : List FlightLine) (index : ℕ) (color : String)
    (droneSpeed photoInterval : ℝ) (areaRing : Option (List Coordinate)) :
    Mission :=
  let m := createMissionWithArea lines index color droneSpeed photoInterval
    (areaRing.getD [])
  let segs := buildSerpentinePath m.flightLines m.index m.color
  let m := { m with pathSegments := some segs }
  match segs with
  | [] => m
  | _ => { m with
      startPoint := (segs.headD default).coordinates.head?,
      endPoint := (segs.getLastD default).coordinates.getLast? }

/-- flightPlanGenerator.ts: packMissionsByBattery (greedy linear merge of
adjacent missions whose combined time fits 90% of the battery). -/
def packMissionsByBattery (missions : List Mission)
    (maxBatteryTime droneSpeed photoInterval : ℝ) : List Mission :=
  let effectiveBatteryTime := maxBatteryTime * 0.9
  if missions.length = 0 then missions
  else
    let st := missions.foldl (fun (st : List Mission × Option Mission × ℕ) m =>
      match st.2.1 with
      | none => (st.1, some m, st.1.length)
      | some a =>
        if a.estimatedTime + m.estimatedTime ≤ effectiveBatteryTime then
          let combinedLines := a.flightLines ++ m.flightLines
          let mergedRing : Option (List Coordinate) :=
            match ringBounds a.areaPolygon, ringBounds m.areaPolygon with
            | some x, some y => some (rectRingFromBounds
                ⟨max x.north y.north, min x.south y.south,
                 max x.east y.east, min x.west y.west⟩)
            | some x, none => some (rectRingFromBounds x)
            | none, some y => some (rectRingFromBounds y)
            | none, none => none
          (st.1, some (recomputeMission combinedLines st.2.2 a.color droneSpeed
            photoInterval mergedRing), st.2.2)
        else
          let flushed : Mission :=
            { a with
              index := st.1.length
              id := "mission-" ++ toString st.1.length }
          (st.1 ++ [flushed], some m, st.1.length + 1))
      ([], none, 0)
    match st.2.1 with
    | some a =>
      let flushed : Mission :=
        { a with
          index := st.1.length
          id := "mission-" ++ toString st.1.length }
      st.1 ++ [flushed]
    | none => st.1

/-- flightPlanGenerator.ts: one start/end configuration of a mission
(forward/reversed line order × forward/reversed first line). -/
structure StartEndOption where
  startPoint : Coordinate
  endPoint : Coordinate
  reverseOrder : Bool
  reverseFirstLine : Bool

/-- flightPlanGenerator.ts: getEndPointForSerpentine. -/
def getEndPointForSerpentine (lines : List FlightLine)
    (reverseOrder reverseFirstLine : Bool) : Coordinate :=
  if lines = [] then ⟨0, 0⟩
  else
    let orderedLines := if reverseOrder then lines.reverse else lines
    let lastLine := orderedLines.getLastD default
    let lastLineIndex := orderedLines.length - 1
    let shouldReverseLast :=
      if reverseFirstLine then decide (lastLineIndex % 2 = 0)
      else decide (lastLineIndex % 2 = 1)
    if shouldReverseLast then lastLine.coordinates.headD ⟨0, 0⟩
    else lastLine.coordinates.getLastD ⟨0, 0⟩

/-- flightPlanGenerator.ts: getMissionStartEndOptions (the four start/end
configurations of a mission, present when the first and last flight lines
are non-empty). -/
def getMissionStartEndOptions (mission : Mission) : List StartEndOption :=
  let lines := mission.flightLines
  if lines = [] then []
  else
    let firstLine := lines.headD default
    let lastLine := lines.getLastD default
    if 0 < firstLine.coordinates.length ∧ 0 < lastLine.coordinates.length then
      [⟨firstLine.coordinates.headD ⟨0, 0⟩,
        getEndPointForSerpentine lines false false, false, false⟩,
       ⟨firstLine.coordinates.getLastD ⟨0, 0⟩,
        getEndPointForSerpentine lines false true, false, true⟩,
       ⟨lastLine.coordinates.headD ⟨0, 0⟩,
        getEndPointForSerpentine lines true false, true, false⟩,
       ⟨lastLine.coordinates.getLastD ⟨0, 0⟩,
        getEndPointForSerpentine lines true true, true, true⟩]
    else []

/-- flightPlanGenerator.ts: rebuildMissionWithOptimalPath. -/
def rebuildMissionWithOptimalPath (mission : Mission)
    (reverseOrder reverseFirstLine : Bool) : Mission :=
  let newFlightLines :=
    if reverseOrder then
      mission.flightLines.reverse.mapIdx (fun idx line =>
        { line with lineIndex := idx })
    else mission.flightLines
  let segs := buildSerpentinePathOptimized newFlightLines mission.index
    mission.color reverseFirstLine 5 none
  let m : Mission :=
    { mission with
      flightLines := newFlightLines
      pathSegments := some segs }
  match segs with
  | [] => m
  | _ => { m with
      startPoint := (segs.headD default).coordinates.head?,
      endPoint := (segs.getLastD default).coordinates.getLast? }

/-- flightPlanGenerator.ts: Transition (the JS `Infinity` sentinel for the
initial distance is modelled as `⊤`). -/
structure Transition where
  fromMissionIndex : ℕ
  toMissionIndex : ℕ
  distance : WithTop ℝ
  fromExitPoint : Coordinate
  toEntryPoint : Coordinate

instance : Inhabited Transition := ⟨⟨0, 0, 0, ⟨0, 0⟩, ⟨0, 0⟩⟩⟩

/-- The transition built from one exit/entry configuration pair. -/
def mkTransition (fi ti : ℕ) (fromOption toOption : StartEndOption) :
    Transition :=
  ⟨fi, ti, (calculateDistance fromOption.endPoint toOption.startPoint : WithTop ℝ),
   fromOption.endPoint, toOption.startPoint⟩

/-- The strict-improvement update step of findOptimalTransition. -/
def transitionStep (fi ti : ℕ) (fromOption : StartEndOption)
    (best : Transition) (toOption : StartEndOption) : Transition :=
  let d := calculateDistance fromOption.endPoint toOption.startPoint
  if (d : WithTop ℝ) < best.distance then mkTransition fi ti fromOption toOption
  else best

/-- flightPlanGenerator.ts: findOptimalTransition (best exit/entry pair over
all start/end configurations of the two missions). -/
def findOptimalTransition (fromMission toMission : Mission) : Transition :=
  let fromOptions := getMissionStartEndOptions fromMission
  let toOptions := getMissionStartEndOptions toMission
  let init : Transition :=
    ⟨fromMission.index, toMission.index, ⊤, ⟨0, 0⟩, ⟨0, 0⟩⟩
  fromOptions.foldl (fun best fromOption =>
    toOptions.foldl (transitionStep fromMission.index toMission.index fromOption)
      best) init

/-- flightPlanGenerator.ts: calculateTransitionCostMatrix. -/
def calculateTransitionCostMatrix (missions : List Mission) :
    List (List Transition) :=
  (List.range missions.length).map (fun i =>
    (List.range missions.length).map (fun j =>
      if i = j then ⟨i, j, (0 : WithTop ℝ), ⟨0, 0⟩, ⟨0, 0⟩⟩
      else findOptimalTransition (missions.getD i default)
        (missions.getD j default)))

/-- Indexing into the transition cost matrix. -/
def matrixGet (m : List (List Transition)) (i j : ℕ) : Transition :=
  (m.getD i []).getD j default

/-- flightPlanGenerator.ts: the nearest-neighbor loop of solveTSPFromStart. -/
def solveTSPFromStartLoop (fuel : ℕ) (costMatrix : List (List Transition))
    (numMissions : ℕ) (visited order : List ℕ) (currentMission : ℕ) :
    List ℕ :=
  match fuel with
  | 0 => order
  | fuel + 1 =>
    if visited.length < numMissions then
      let nearest := (List.range numMissions).foldl
        (fun (acc : Option (ℕ × WithTop ℝ)) nextMission =>
          if visited.contains nextMission then acc
          else
            let d := (matrixGet costMatrix currentMission nextMission).distance
            match acc with
            | none => if d < (⊤ : WithTop ℝ) then some (nextMission, d) else acc
            | some (bm, bd) =>
              if d < bd then some (nextMission, d) else some (bm, bd)) none
      match nearest with
      | some (nm, _) => solveTSPFromStartLoop fuel costMatrix numMissions
          (visited ++ [nm]) (order ++ [nm]) nm
      | none => order
    else order

/-- flightPlanGenerator.ts: solveTSPFromStart. -/
def solveTSPFromStart (costMatrix : List (List Transition))
    (startMission : ℕ) : List ℕ :=
  solveTSPFromStartLoop costMatrix.length costMatrix costMatrix.length
    [startMission] [startMission] startMission

/-- flightPlanGenerator.ts: calculateTotalPathDistance. -/
def calculateTotalPathDistance (costMatrix : List (List Transition))
    (order : List ℕ) : WithTop ℝ :=
  (List.range (order.length - 1)).foldl (fun total i =>
    total + (matrixGet costMatrix (order.getD i 0) (order.getD (i + 1) 0)).distance)
    0

/-- flightPlanGenerator.ts: solveMissionOrderTSP (multi-start nearest
neighbor, keeping the order with the smallest total distance). -/
def solveMissionOrderTSP (costMatrix : List (List Transition)) : List ℕ :=
  let numMissions := costMatrix.length
  if numMissions ≤ 1 then [0]
  else
    let best := (List.range numMissions).foldl
      (fun (acc : List ℕ × WithTop ℝ) startMission =>
        let order := solveTSPFromStart costMatrix startMission
        let totalDistance := calculateTotalPathDistance costMatrix order
        if totalDistance < acc.2 then (order, totalDistance) else acc) ([], ⊤)
    best.1

/-- flightPlanGenerator.ts: buildOptimizedFlightPlan (rebuild each mission,
except the first, in the orientation chosen by its incoming transition). -/
def buildOptimizedFlightPlan (missions : List Mission)
    (optimalOrder : List ℕ) (costMatrix : List (List Transition)) :
    List Mission :=
  (List.range optimalOrder.length).foldl (fun optimizedMissions i =>
    let missionIndex := optimalOrder.getD i 0
    let originalMission := missions.getD missionIndex default
    let optimalMission :=
      if 0 < i then
        let prevMissionIndex := optimalOrder.getD (i - 1) 0
        let transition := matrixGet costMatrix prevMissionIndex missionIndex
        let missionOptions := getMissionStartEndOptions originalMission
        let optimalOption := missionOptions.find? (fun o =>
          decide (o.startPoint.lat = transition.toEntryPoint.lat) &&
          decide (o.startPoint.lng = transition.toEntryPoint.lng))
        let base := match optimalOption with
          | some o => rebuildMissionWithOptimalPath originalMission
              o.reverseOrder o.reverseFirstLine
          | none => originalMission
        { base with
          startPoint := some transition.toEntryPoint
          endPoint := some transition.fromExitPoint }
      else originalMission
    optimizedMissions ++ [optimalMission]) []

/-- flightPlanGenerator.ts: optimizeMissionChaining. -/
def optimizeMissionChaining (missions : List Mission) : List Mission :=
  if missions.length ≤ 1 then missions
  else
    let costMatrix := calculateTransitionCostMatrix missions
    let optimalOrder := solveMissionOrderTSP costMatrix
    buildOptimizedFlightPlan missions optimalOrder costMatrix

/-- flightPlanGenerator.ts: createFallbackMission (whole-AOI mission used
when partitioning produced nothing; `null` on failure is `none`). -/
def createFallbackMission (polygon : Polygon)
    (heading lineSpacing droneSpeed photoInterval : ℝ) : Option Mission :=
  let rawLines := generateFlightLinesClippedByAOI polygon polygon heading
    lineSpacing
  if rawLines = [] then none
  else
    let flightLines := rawLines.mapIdx (fun idx coords =>
      ({ id := "fallback-line-" ++ toString idx, coordinates := coords,
         heading := heading, length := calculateLineLength coords,
         missionIndex := 0, lineIndex := idx } : FlightLine))
    let mission := createMissionWithArea flightLines 0 "#ef4444" droneSpeed
      photoInterval (polygon.coordinates.headD [])
    let segs := buildSerpentinePathOptimized mission.flightLines 0
      mission.color false droneSpeed (some polygon)
    let m := { mission with pathSegments := some segs }
    some (match segs with
      | [] => m
      | _ => { m with
          startPoint := (segs.headD default).coordinates.head?,
          endPoint := (segs.getLastD default).coordinates.getLast? })

/-- flightPlanGenerator.ts: the mission colors palette. -/
def missionColors : List String :=
  ["#ef4444", "#10b981", "#3b82f6", "#f59e0b",
   "#8b5cf6", "#06b6d4", "#84cc16", "#f97316"]

/-- flightPlanGenerator.ts: the rectangular strip sub-polygon built by the
partition loop for the current strip. -/
def mkStrip (polygon : Polygon) (heading perpendicularWidth
    alongHeadingLength widthForBattery offsetFromWestOrSouth : ℝ) : Polygon :=
  let b := polygon.bounds
  let proportionStart := offsetFromWestOrSouth / perpendicularWidth
  let proportionEnd :=
    min 1 ((offsetFromWestOrSouth + widthForBattery) / perpendicularWidth)
  if heading = 0 ∨ heading = 180 then
    let lngStart := b.west + (b.east - b.west) * proportionStart
    let lngEnd := b.west + (b.east - b.west) * proportionEnd
    { coordinates := [[⟨b.north, lngStart⟩, ⟨b.north, lngEnd⟩,
        ⟨b.south, lngEnd⟩, ⟨b.south, lngStart⟩, ⟨b.north, lngStart⟩]],
      area := alongHeadingLength * widthForBattery,
      bounds := ⟨b.north, b.south, lngEnd, lngStart⟩ }
  else
    let latStart := b.south + (b.north - b.south) * proportionStart
    let latEnd := b.south + (b.north - b.south) * proportionEnd
    { coordinates := [[⟨latEnd, b.east⟩, ⟨latEnd, b.west⟩,
        ⟨latStart, b.west⟩, ⟨latStart, b.east⟩, ⟨latEnd, b.east⟩]],
      area := alongHeadingLength * widthForBattery,
      bounds := ⟨latEnd, latStart, b.east, b.west⟩ }

/-- flightPlanGenerator.ts: the strip-slicing `while` loop of
partitionAOIIntoPolygonMissions, with fuel for termination (the source
additionally breaks after 100 missions). -/
def partitionLoop (fuel : ℕ) (polygon : Polygon) (heading lineSpacing
    batteryTime droneSpeed photoInterval perpendicularWidth
    alongHeadingLength : ℝ) (missions : List Mission)
    (remainingWidth offsetFromWestOrSouth : ℝ) (missionIdx : ℕ) :
    List Mission :=
  match fuel with
  | 0 => missions
  | fuel + 1 =>
    if 0.1 < remainingWidth then
      let widthForBattery := findStripWidthForBattery lineSpacing
        alongHeadingLength droneSpeed photoInterval batteryTime remainingWidth
      if widthForBattery < lineSpacing * 0.5 ∨
          remainingWidth * 0.9 < widthForBattery then
        let forcedWidth := max lineSpacing
          (min (remainingWidth * 0.3) (lineSpacing * 10))
        partitionLoop fuel polygon heading lineSpacing batteryTime droneSpeed
          photoInterval perpendicularWidth alongHeadingLength missions
          (max 0 (remainingWidth - forcedWidth))
          (offsetFromWestOrSouth + forcedWidth) (missionIdx + 1)
      else
        let strip := mkStrip polygon heading perpendicularWidth
          alongHeadingLength widthForBattery offsetFromWestOrSouth
        let rawLines := generateFlightLinesClippedByAOI strip polygon heading
          lineSpacing
        if rawLines = [] then
          partitionLoop fuel polygon heading lineSpacing batteryTime
            droneSpeed photoInterval perpendicularWidth alongHeadingLength
            missions (remainingWidth - widthForBattery)
            (offsetFromWestOrSouth + widthForBattery) (missionIdx + 1)
        else
          let flightLines := rawLines.mapIdx (fun idx coords =>
            ({ id := "m" ++ toString missionIdx ++ "-line-" ++ toString idx,
               coordinates := coords, heading := heading,
               length := calculateLineLength coords,
               missionIndex := missionIdx, lineIndex := idx } : FlightLine))
          let mission0 := createMissionWithArea flightLines missionIdx
            (missionColors.getD (missionIdx % missionColors.length) "")
            droneSpeed photoInterval (strip.coordinates.headD [])
          let rollback : Option ℝ :=
            if batteryTime < mission0.estimatedTime then
              let maxLinesForBattery : ℤ := ⌊batteryTime / 0.5⌋
              let maxWidthForBattery := max lineSpacing
                (((maxLinesForBattery : ℝ) - 1) * lineSpacing)
              if maxWidthForBattery < widthForBattery then
                some maxWidthForBattery
              else none
            else none
          match rollback with
          | some maxWidthForBattery =>
            partitionLoop fuel polygon heading lineSpacing batteryTime
              droneSpeed photoInterval perpendicularWidth alongHeadingLength
              missions (remainingWidth + (widthForBattery - maxWidthForBattery))
              (offsetFromWestOrSouth - (widthForBattery - maxWidthForBattery))
              missionIdx
          | none =>
            let segs := buildSerpentinePathOptimized mission0.flightLines
              missionIdx mission0.color false droneSpeed (some polygon)
            let mission1 := { mission0 with pathSegments := some segs }
            let mission2 := match segs with
              | [] => mission1
              | _ => { mission1 with
                  startPoint := (segs.headD default).coordinates.head?,
                  endPoint := (segs.getLastD default).coordinates.getLast? }
            let missions2 := missions ++ [mission2]
            let remainingWidth2 := remainingWidth - widthForBattery
            let missionIdx2 := missionIdx + 1
            if 100 < missionIdx2 then missions2
            else if widthForBattery < remainingWidth2 * 0.01 then missions2
            else partitionLoop fuel polygon heading lineSpacing batteryTime
              droneSpeed photoInterval perpendicularWidth alongHeadingLength
              missions2 remainingWidth2
              (offsetFromWestOrSouth + widthForBattery) missionIdx2
    else missions

/-- flightPlanGenerator.ts: partitionAOIIntoPolygonMissions. -/
def partitionAOIIntoPolygonMissions (polygon : Polygon) (heading lineSpacing
    maxBatteryTime droneSpeed photoInterval : ℝ) : List Mission :=
  let b := polygon.bounds
  let widthEW := calculateDistance ⟨b.north, b.west⟩ ⟨b.north, b.east⟩
  let heightNS := calculateDistance ⟨b.north, b.west⟩ ⟨b.south, b.west⟩
  let perpendicularWidth :=
    if heading = 0 ∨ heading = 180 then widthEW else heightNS
  let alongHeadingLength :=
    if heading = 0 ∨ heading = 180 then heightNS else widthEW
  let batteryTime := maxBatteryTime * 0.9
  let missions := partitionLoop 10000 polygon heading lineSpacing batteryTime
    droneSpeed photoInterval perpendicularWidth alongHeadingLength []
    perpendicularWidth 0 0
  let missions :=
    if missions.length = 0 then
      match createFallbackMission polygon heading lineSpacing droneSpeed
        photoInterval with
      | some fm => [fm]
      | none => []
    else missions
  let packed := packMissionsByBattery missions maxBatteryTime droneSpeed
    photoInterval
  optimizeMissionChaining packed

/-- flightPlanGenerator.ts: generateFlightPlan (heading-candidate selection,
GSD validation, per-heading partitioning, best-plan selection and
aggregation; a thrown validation `Error` is `Except.error`). -/
def generateFlightPlan (missionData : MissionData) :
    Except String FlightPlan :=
  let candidateHeadings :=
    if missionData.parameters.manualHeading &&
        missionData.parameters.customHeading.isSome then
      [missionData.parameters.customHeading.getD 0]
    else [0, 90]
  if 5000 < missionData.parameters.gsd then
    Except.error "GSD value is too high. Please use a value between 0.5 and 50cm."
  else if missionData.parameters.gsd < 0.5 then
    Except.error "GSD value is too low. Please use a value between 0.5 and 50cm."
  else
    let lineSpacing := calculateLineSpacing missionData.parameters.gsd
      missionData.droneSpecs.imageWidth missionData.parameters.sideOverlap
    let photoInterval := calculatePhotoInterval missionData.parameters.gsd
      missionData.droneSpecs.imageHeight missionData.parameters.frontOverlap
    let best := candidateHeadings.foldl
      (fun (best : ℝ × List Mission × WithTop ℝ) h =>
        let ms := partitionAOIIntoPolygonMissions missionData.polygon h
          lineSpacing missionData.parameters.maxBatteryTime
          missionData.parameters.droneSpeed photoInterval
        let t : ℝ := ms.foldl (fun sum m => sum + m.estimatedTime) 0
        if (t : WithTop ℝ) < best.2.2 then (h, ms, (t : WithTop ℝ)) else best)
      (candidateHeadings.headD 0, [], ⊤)
    let missions := best.2.1
    let optimalHeading := best.1
    let totalTime := missions.foldl (fun sum m => sum + m.estimatedTime) 0
    let totalPhotos := missions.foldl (fun sum m => sum + m.estimatedPhotos) 0
    Except.ok
      { missions := missions
        totalTime := totalTime
        totalPhotos := totalPhotos
        totalArea := missionData.polygon.area
        batteryCount := missions.length
        optimalHeading := optimalHeading }


/-! ## Helper lemmas -/

theorem atan2_zero_of_pos {x : ℝ} (hx : 0 < x) : atan2 0 x = 0 := by
  rw [atan2, if_pos hx]
  simp

theorem atan2_sin_cos {θ : ℝ} (h1 : 0 ≤ θ) (h2 : θ < Real.pi / 2) :
    atan2 (Real.sin θ) (Real.cos θ) = θ := by
  have hc : 0 < Real.cos θ := by
    apply Real.cos_pos_of_mem_Ioo
    constructor <;> nlinarith [Real.pi_pos]
  rw [atan2, if_pos hc, ← Real.tan_eq_sin_div_cos,
    Real.arctan_tan (by nlinarith [Real.pi_pos]) h2]

theorem calculateDistance_self (p : Coordinate) : calculateDistance p p = 0 := by
  simp [calculateDistance, atan2_zero_of_pos]

/-- Haversine distance between two equator points. -/
theorem calculateDistance_lat0 (l1 l2 : ℝ) (h : l1 ≤ l2)
    (h2 : (l2 - l1) * Real.pi / 180 / 2 < Real.pi / 2) :
    calculateDistance ⟨0, l1⟩ ⟨0, l2⟩ = 6371000 * ((l2 - l1) * Real.pi / 180) := by
  have hpi := Real.pi_pos
  set θ := (l2 - l1) * Real.pi / 180 / 2 with hθ
  have hθ0 : 0 ≤ θ := by
    have hd : 0 ≤ l2 - l1 := by linarith
    rw [hθ]
    positivity
  have hs : 0 ≤ Real.sin θ :=
    Real.sin_nonneg_of_nonneg_of_le_pi hθ0 (by linarith)
  have hc : 0 ≤ Real.cos θ :=
    Real.cos_nonneg_of_mem_Icc ⟨by linarith, le_of_lt h2⟩
  have key1 : Real.sqrt (Real.sin θ * Real.sin θ) = Real.sin θ :=
    Real.sqrt_mul_self hs
  have key2 : Real.sqrt (1 - Real.sin θ * Real.sin θ) = Real.cos θ := by
    have hsq : 1 - Real.sin θ * Real.sin θ = Real.cos θ * Real.cos θ := by
      have := Real.sin_sq_add_cos_sq θ
      nlinarith
    rw [hsq, Real.sqrt_mul_self hc]
  have main : calculateDistance ⟨0, l1⟩ ⟨0, l2⟩ = 6371000 * (2 * θ) := by
    simp only [calculateDistance, sub_self, zero_mul, zero_div, Real.sin_zero,
      mul_zero, zero_add, Real.cos_zero, one_mul, mul_one]
    rw [show (l2 - l1) * Real.pi / 180 / 2 = θ from rfl]
    rw [key1, key2, atan2_sin_cos hθ0 h2]
  rw [main, hθ]
  ring

theorem offset_zero_lat0 (L b : ℝ) :
    calculateOffsetPoint ⟨0, L⟩ b 0 = ⟨0, L⟩ := by
  have hpi := Real.pi_pos
  simp only [calculateOffsetPoint, zero_mul, zero_div, Real.sin_zero,
    Real.cos_zero, mul_zero, zero_add, mul_one, one_mul, sub_zero,
    Real.arcsin_zero, atan2_zero_of_pos one_pos]
  congr 1
  field_simp

theorem waypoints_self (p : Coordinate) (s : ℝ) :
    generateWaypointsAlongLine p p s = [p] := by
  simp only [generateWaypointsAlongLine, calculateDistance_self, zero_div,
    Int.ceil_zero, zero_add]
  rw [show List.range (Int.toNat 1) = [0] from rfl]
  simp

theorem interiorRunsAux (inside : Coordinate → Bool) :
    ∀ (wps : List Coordinate) (st : List (List Coordinate) × List Coordinate),
    (∀ r ∈ st.1, ∀ w ∈ r, inside w = true) → (∀ w ∈ st.2, inside w = true) →
    (∀ r ∈ (wps.foldl (interiorRunsStep inside) st).1, ∀ w ∈ r, inside w = true) ∧
    (∀ w ∈ (wps.foldl (interiorRunsStep inside) st).2, inside w = true) := by
  intro wps
  induction wps with
  | nil => intro st h1 h2; exact ⟨h1, h2⟩
  | cons wp rest ih =>
    intro st h1 h2
    rw [List.foldl_cons]
    apply ih
    · intro r hr w hw
      rw [interiorRunsStep] at hr
      split_ifs at hr with hin hlen
      · exact h1 r hr w hw
      · rcases List.mem_append.mp hr with h | h
        · exact h1 r h w hw
        · rw [List.mem_singleton.mp h] at hw
          exact h2 w hw
      · exact h1 r hr w hw
    · intro w hw
      rw [interiorRunsStep] at hw
      split_ifs at hw with hin hlen
      · rcases List.mem_append.mp hw with h | h
        · exact h2 w h
        · rw [List.mem_singleton.mp h]
          exact hin
      · exact absurd hw (List.not_mem_nil w)
      · exact absurd hw (List.not_mem_nil w)

theorem interiorRuns_all (inside : Coordinate → Bool) (wps : List Coordinate) :
    ∀ run ∈ interiorRuns inside wps, ∀ wp ∈ run, inside wp = true := by
  intro run hrun wp hwp
  rw [interiorRuns] at hrun
  have h := interiorRunsAux inside wps ([], [])
    (by intro r hr; exact absurd hr (List.not_mem_nil r))
    (by intro w hw; exact absurd hw (List.not_mem_nil w))
  split_ifs at hrun with hlen
  · rcases List.mem_append.mp hrun with hm | hm
    · exact h.1 run hm wp hwp
    · rw [List.mem_singleton.mp hm] at hwp
      exact h.2 wp hwp
  · exact h.1 run hrun wp hwp

theorem mem_foldl_append {β : Type} (f : β → List (List Coordinate)) :
    ∀ (l : List β) (acc : List (List Coordinate)) (x : List Coordinate),
    x ∈ l.foldl (fun a i => a ++ f i) acc ↔ x ∈ acc ∨ ∃ i ∈ l, x ∈ f i := by
  intro l
  induction l with
  | nil => simp
  | cons b rest ih =>
    intro acc x
    rw [List.foldl_cons, ih]
    simp [List.mem_append, or_assoc]

theorem flightLineSegmentsAt_inside (p : Polygon) (heading a es c : ℝ)
    (n : ℤ) (i : ℕ) :
    ∀ line ∈ flightLineSegmentsAt p heading a es c n i, ∀ wp ∈ line,
    isPointInPolygonRings wp p.coordinates = true := by
  intro line hline wp hwp
  simp only [flightLineSegmentsAt] at hline
  split at hline
  · exact absurd hline (List.not_mem_nil line)
  · have hm := (List.mem_filter.mp hline).1
    exact interiorRuns_all _ _ line hm wp hwp

/-- Every waypoint of every listed flight line passes the
polygon-with-holes interior test against `rings`. -/
def allWaypointsInside (lines : List (List Coordinate))
    (rings : List (List Coordinate)) : Prop :=
  ∀ line ∈ lines, ∀ wp ∈ line, isPointInPolygonRings wp rings = true

theorem generateSingleCenterLine_inside (p : Polygon) (heading : ℝ) :
    allWaypointsInside (generateSingleCenterLine p heading) p.coordinates := by
  intro line hline wp hwp
  simp only [generateSingleCenterLine] at hline
  split at hline <;> split at hline <;>
    first
      | exact absurd hline (List.not_mem_nil line)
      | · rw [List.mem_singleton.mp hline] at hwp
          exact (List.mem_filter.mp hwp).2

theorem clippedFlightLineSegmentsAt_inside (area masterAOI : Polygon)
    (heading a c : ℝ) (n : ℤ) (i : ℕ) :
    ∀ line ∈ clippedFlightLineSegmentsAt area masterAOI heading a c n i,
    ∀ wp ∈ line, isPointInPolygonRings wp area.coordinates = true ∧
      isPointInPolygonRings wp masterAOI.coordinates = true := by
  intro line hline wp hwp
  simp only [clippedFlightLineSegmentsAt] at hline
  split at hline
  · exact absurd hline (List.not_mem_nil line)
  · have hm := (List.mem_filter.mp hline).1
    have h := interiorRuns_all _ _ line hm wp hwp
    constructor
    · exact (Bool.and_eq_true _ _ |>.mp h).1
    · exact (Bool.and_eq_true _ _ |>.mp h).2

theorem normHigh_le (a : ℝ) : normHigh a ≤ 180 := by
  rw [normHigh]
  split_ifs with h
  · exact normHigh_le (a - 360)
  · linarith
termination_by (⌈a / 360⌉).toNat
decreasing_by
  have h1 : (0 : ℤ) < ⌈a / 360⌉ := by
    rw [Int.lt_ceil]
    push_cast
    linarith
  have h2 : ⌈(a - 360) / 360⌉ = ⌈a / 360⌉ - 1 := by
    rw [sub_div, div_self (by norm_num : (360 : ℝ) ≠ 0), Int.ceil_sub_one]
  rw [h2]
  omega

theorem normHigh_mod (a : ℝ) : ∃ k : ℤ, normHigh a = a + 360 * k := by
  rw [normHigh]
  split_ifs with h
  · obtain ⟨k, hk⟩ := normHigh_mod (a - 360)
    exact ⟨k - 1, by rw [hk]; push_cast; ring⟩
  · exact ⟨0, by norm_num⟩
termination_by (⌈a / 360⌉).toNat
decreasing_by
  have h1 : (0 : ℤ) < ⌈a / 360⌉ := by
    rw [Int.lt_ceil]
    push_cast
    linarith
  have h2 : ⌈(a - 360) / 360⌉ = ⌈a / 360⌉ - 1 := by
    rw [sub_div, div_self (by norm_num : (360 : ℝ) ≠ 0), Int.ceil_sub_one]
  rw [h2]
  omega

theorem normLow_ge (a : ℝ) : -180 ≤ normLow a := by
  rw [normLow]
  split_ifs with h
  · exact normLow_ge (a + 360)
  · linarith
termination_by (⌈-a / 360⌉).toNat
decreasing_by
  have h1 : (0 : ℤ) < ⌈-a / 360⌉ := by
    rw [Int.lt_ceil]
    push_cast
    linarith
  have h2 : ⌈-(a + 360) / 360⌉ = ⌈-a / 360⌉ - 1 := by
    rw [show -(a + 360) = -a - 360 by ring, sub_div,
      div_self (by norm_num : (360 : ℝ) ≠ 0), Int.ceil_sub_one]
  rw [h2]
  omega

theorem normLow_le (a : ℝ) (ha : a ≤ 180) : normLow a ≤ 180 := by
  rw [normLow]
  split_ifs with h
  · exact normLow_le (a + 360) (by linarith)
  · exact ha
termination_by (⌈-a / 360⌉).toNat
decreasing_by
  have h1 : (0 : ℤ) < ⌈-a / 360⌉ := by
    rw [Int.lt_ceil]
    push_cast
    linarith
  have h2 : ⌈-(a + 360) / 360⌉ = ⌈-a / 360⌉ - 1 := by
    rw [show -(a + 360) = -a - 360 by ring, sub_div,
      div_self (by norm_num : (360 : ℝ) ≠ 0), Int.ceil_sub_one]
  rw [h2]
  omega

theorem normLow_mod (a : ℝ) : ∃ k : ℤ, normLow a = a + 360 * k := by
  rw [normLow]
  split_ifs with h
  · obtain ⟨k, hk⟩ := normLow_mod (a + 360)
    exact ⟨k + 1, by rw [hk]; push_cast; ring⟩
  · exact ⟨0, by norm_num⟩
termination_by (⌈-a / 360⌉).toNat
decreasing_by
  have h1 : (0 : ℤ) < ⌈-a / 360⌉ := by
    rw [Int.lt_ceil]
    push_cast
    linarith
  have h2 : ⌈-(a + 360) / 360⌉ = ⌈-a / 360⌉ - 1 := by
    rw [show -(a + 360) = -a - 360 by ring, sub_div,
      div_self (by norm_num : (360 : ℝ) ≠ 0), Int.ceil_sub_one]
  rw [h2]
  omega

theorem generateUTurn_shape (s e : Coordinate) (r h : ℝ) (p : Polygon) :
    ∃ mid, generateUTurn s e r h p = s :: (mid ++ [e]) := ⟨_, rfl⟩

theorem generateSmoothTurn_shape (s e : Coordinate) (r h1 h2 : ℝ)
    (p : Polygon) :
    ∃ mid, generateSmoothTurn s e r h1 h2 p = s :: (mid ++ [e]) := by
  rw [generateSmoothTurn]
  split_ifs
  · exact ⟨[], rfl⟩
  · exact ⟨_, rfl⟩

theorem generateOptimizedTurn_shape (l1e l2s : Coordinate) (h1 h2 r : ℝ)
    (p : Polygon) :
    ∃ mid, generateOptimizedTurn l1e l2s h1 h2 r p = l1e :: (mid ++ [l2s]) := by
  rw [generateOptimizedTurn]
  split_ifs
  · exact ⟨[], rfl⟩
  · exact generateUTurn_shape _ _ _ _ _
  · exact generateSmoothTurn_shape _ _ _ _ _ _

theorem transitionStep_dist (fi ti : ℕ) (fo : StartEndOption)
    (b : Transition) (oj : StartEndOption) :
    (transitionStep fi ti fo b oj = b ∨
      transitionStep fi ti fo b oj = mkTransition fi ti fo oj) ∧
    (transitionStep fi ti fo b oj).distance ≤ b.distance ∧
    (transitionStep fi ti fo b oj).distance ≤
      (calculateDistance fo.endPoint oj.startPoint : WithTop ℝ) := by
  rw [transitionStep]
  split_ifs with h
  · exact ⟨Or.inr rfl, le_of_lt h, le_refl _⟩
  · exact ⟨Or.inl rfl, le_refl _, not_lt.mp h⟩

theorem inner_fold_char (fi ti : ℕ) (fo : StartEndOption) :
    ∀ (l2 : List StartEndOption) (b : Transition),
    ((l2.foldl (transitionStep fi ti fo) b = b ∨
       ∃ oj ∈ l2, l2.foldl (transitionStep fi ti fo) b = mkTransition fi ti fo oj) ∧
     (l2.foldl (transitionStep fi ti fo) b).distance ≤ b.distance ∧
     ∀ oj ∈ l2, (l2.foldl (transitionStep fi ti fo) b).distance ≤
       (calculateDistance fo.endPoint oj.startPoint : WithTop ℝ)) := by
  intro l2
  induction l2 with
  | nil => intro b; refine ⟨Or.inl rfl, le_refl _, ?_⟩; simp
  | cons oj rest ih =>
    intro b
    rw [List.foldl_cons]
    obtain ⟨hstep, hle, hd⟩ := transitionStep_dist fi ti fo b oj
    obtain ⟨ih1, ih2, ih3⟩ := ih (transitionStep fi ti fo b oj)
    refine ⟨?_, le_trans ih2 hle, ?_⟩
    · rcases ih1 with h | ⟨oj2, hmem, heq⟩
      · rcases hstep with h2 | h2
        · exact Or.inl (h.trans h2)
        · exact Or.inr ⟨oj, List.mem_cons_self _ _, h.trans h2⟩
      · exact Or.inr ⟨oj2, List.mem_cons_of_mem _ hmem, heq⟩
    · intro oj2 hmem
      rcases List.mem_cons.mp hmem with h | h
      · subst h
        exact le_trans ih2 hd
      · exact ih3 oj2 h

theorem outer_fold_char (fi ti : ℕ) (l2 : List StartEndOption) :
    ∀ (l1 : List StartEndOption) (b : Transition),
    ((l1.foldl (fun best fo => l2.foldl (transitionStep fi ti fo) best) b = b ∨
       ∃ fo ∈ l1, ∃ oj ∈ l2,
         l1.foldl (fun best fo => l2.foldl (transitionStep fi ti fo) best) b =
           mkTransition fi ti fo oj) ∧
     (l1.foldl (fun best fo => l2.foldl (transitionStep fi ti fo) best) b).distance
       ≤ b.distance ∧
     ∀ fo ∈ l1, ∀ oj ∈ l2,
       (l1.foldl (fun best fo => l2.foldl (transitionStep fi ti fo) best) b).distance
         ≤ (calculateDistance fo.endPoint oj.startPoint : WithTop ℝ)) := by
  intro l1
  induction l1 with
  | nil => intro b; refine ⟨Or.inl rfl, le_refl _, ?_⟩; simp
  | cons fo rest ih =>
    intro b
    rw [List.foldl_cons]
    obtain ⟨h1, h2, h3⟩ := inner_fold_char fi ti fo l2 b
    obtain ⟨ih1, ih2, ih3⟩ := ih (l2.foldl (transitionStep fi ti fo) b)
    refine ⟨?_, le_trans ih2 h2, ?_⟩
    · rcases ih1 with h | ⟨fo2, hm1, oj2, hm2, heq⟩
      · rw [h]
        rcases h1 with ha | ⟨oj, hmo, ha⟩
        · exact Or.inl ha
        · exact Or.inr ⟨fo, List.mem_cons_self _ _, oj, hmo, ha⟩
      · exact Or.inr ⟨fo2, List.mem_cons_of_mem _ hm1, oj2, hm2, heq⟩
    · intro fo2 hm1 oj2 hm2
      rcases List.mem_cons.mp hm1 with h | h
      · subst h
        exact le_trans ih2 (h3 oj2 hm2)
      · exact ih3 fo2 h oj2 hm2

theorem getMissionStartEndOptions_length (m : Mission)
    (hm : m.flightLines ≠ [])
    (hc : ∀ l ∈ m.flightLines, l.coordinates ≠ []) :
    (getMissionStartEndOptions m).length = 4 := by
  simp only [getMissionStartEndOptions]
  rw [if_neg hm]
  rcases List.exists_cons_of_ne_nil hm with ⟨x, xs, hx⟩
  have hhead : m.flightLines.headD default ∈ m.flightLines := by
    rw [hx]; exact List.mem_cons_self _ _
  have hlast : m.flightLines.getLastD default ∈ m.flightLines := by
    rw [hx, List.getLastD_eq_getLast?, List.getLast?_eq_getLast _ (by simp)]
    exact List.getLast_mem _
  rw [if_pos ⟨List.length_pos.mpr (hc _ hhead), List.length_pos.mpr (hc _ hlast)⟩]
  rfl

/-- A degenerate but three-distinct-vertex outer ring lying on the equator. -/
def flatRing : List Coordinate := [⟨0, 0⟩, ⟨0, 1/1000⟩, ⟨0, 2/1000⟩]

/-- The polygon over `flatRing`, with its consistent bounding box. -/
def flatPolygon : Polygon :=
  { coordinates := [flatRing], area := calculatePolygonArea flatRing,
    bounds := ⟨0, 0, 2/1000, 0⟩ }

theorem flat_cov_le : coverageWidthFor flatPolygon 0 ≤ 1000000 := by
  have hpi := Real.pi_pos
  rw [coverageWidthFor]
  simp only [flatPolygon, true_or, if_true]
  rw [calculateDistance_lat0 0 (2/1000) (by norm_num) (by nlinarith)]
  nlinarith [Real.pi_lt_four]

theorem flat_zero_lines : generateFlightLines flatPolygon 0 1000000 = [] := by
  rw [generateFlightLines, if_pos flat_cov_le, generateSingleCenterLine]
  norm_num [flatPolygon, calculateDistance_self, offset_zero_lat0,
    waypoints_self, isPointInPolygonRings, isPointInRing, flatRing,
    show List.range 3 = [0, 1, 2] from rfl]

/-- A concrete mission data record with GSD 1000 cm. -/
def mdGsd1000 : MissionData :=
  { polygon :=
      { coordinates := [[⟨0, 0⟩, ⟨0, 1/1000⟩, ⟨1/1000, 0⟩]],
        area := calculatePolygonArea [⟨0, 0⟩, ⟨0, 1/1000⟩, ⟨1/1000, 0⟩],
        bounds := ⟨1/1000, 0, 1/1000, 0⟩ },
    parameters :=
      { gsd := 1000, frontOverlap := 75, sideOverlap := 65,
        droneSpeed := 5, maxBatteryTime := 20 },
    droneSpecs :=
      { sensorWidth := 13.2, sensorHeight := 8.8, focalLength := 8.8,
        imageWidth := 5472, imageHeight := 3648, minPhotoInterval := 2,
        usableBatteryTime := 20 },
    calculatedAltitude := 100 }

/-- A one-line flight line on the equator. -/
def lineA : FlightLine :=
  { id := "a", coordinates := [⟨0, 0⟩, ⟨0, 1/1000⟩], heading := 90,
    length := 111, missionIndex := 0, lineIndex := 0 }

/-- A second flight line on the equator. -/
def lineB : FlightLine :=
  { id := "b", coordinates := [⟨0, 2/1000⟩, ⟨0, 3/1000⟩], heading := 90,
    length := 111, missionIndex := 1, lineIndex := 0 }

/-- A one-line mission on the equator (for transition computations). -/
def missionA : Mission :=
  { id := "A", index := 0, flightLines := [lineA], estimatedTime := 1,
    estimatedPhotos := 1, color := "#ef4444" }

/-- A second one-line mission on the equator. -/
def missionB : Mission :=
  { id := "B", index := 1, flightLines := [lineB], estimatedTime := 1,
    estimatedPhotos := 1, color := "#10b981" }


theorem generateFlightLines_inside (p : Polygon) (heading lineSpacing : ℝ) :
    allWaypointsInside (generateFlightLines p heading lineSpacing)
      p.coordinates := by
  intro line hline wp hwp
  simp only [generateFlightLines] at hline
  split at hline
  · exact generateSingleCenterLine_inside p heading line hline wp hwp
  · rcases (mem_foldl_append _ _ _ _).mp hline with h | ⟨i, _, hmem⟩
    · exact absurd h (List.not_mem_nil line)
    · exact flightLineSegmentsAt_inside p heading _ _ _ _ i line hmem wp hwp

theorem generateFlightLinesClippedByAOI_inside (area masterAOI : Polygon)
    (heading lineSpacing : ℝ) :
    allWaypointsInside
      (generateFlightLinesClippedByAOI area masterAOI heading lineSpacing)
      area.coordinates ∧
    allWaypointsInside
      (generateFlightLinesClippedByAOI area masterAOI heading lineSpacing)
      masterAOI.coordinates := by
  constructor <;>
  · intro line hline wp hwp
    simp only [generateFlightLinesClippedByAOI] at hline
    rcases (mem_foldl_append _ _ _ _).mp hline with h | ⟨i, _, hmem⟩
    · exact absurd h (List.not_mem_nil line)
    · first
      | exact (clippedFlightLineSegmentsAt_inside area masterAOI heading _ _ _ i
          line hmem wp hwp).1
      | exact (clippedFlightLineSegmentsAt_inside area masterAOI heading _ _ _ i
          line hmem wp hwp).2

/-! ## Closed forms for haversine distances and offsets -/

theorem sin_le_self {x : ℝ} (h : 0 ≤ x) : Real.sin x ≤ x := by
  rcases eq_or_lt_of_le h with h0 | h0
  · rw [← h0, Real.sin_zero]
  · exact le_of_lt (Real.sin_lt h0)

theorem cos_lt_one' {x : ℝ} (h0 : 0 < x) (h1 : x ≤ Real.pi) :
    Real.cos x < 1 := by
  have := Real.cos_lt_cos_of_nonneg_of_le_pi (le_refl 0) h1 h0
  rwa [Real.cos_zero] at this

theorem le_arcsin {x : ℝ} (h0 : 0 ≤ x) (h1 : x ≤ 1) : x ≤ Real.arcsin x := by
  have ha0 : 0 ≤ Real.arcsin x := Real.arcsin_nonneg.mpr h0
  have := sin_le_self ha0
  rwa [Real.sin_arcsin (by linarith) h1] at this

theorem arcsin_lt_arcsin' {a b : ℝ} (ha : -1 ≤ a) (hab : a < b) (hb : b ≤ 1) :
    Real.arcsin a < Real.arcsin b :=
  Real.strictMonoOn_arcsin ⟨ha, le_trans (le_of_lt hab) hb⟩
    ⟨le_trans ha (le_of_lt hab), hb⟩ hab

theorem arcsin_lt_of_lt_sin {a y : ℝ} (ha : -1 ≤ a) (hy0 : 0 ≤ y)
    (hy : y ≤ Real.pi / 2) (h : a < Real.sin y) : Real.arcsin a < y := by
  have := arcsin_lt_arcsin' ha h (Real.sin_le_one y)
  rwa [Real.arcsin_sin (by linarith [Real.pi_pos]) hy] at this

theorem lt_arcsin_of_sin_lt {a y : ℝ} (hy : -(Real.pi/2) ≤ y)
    (hy2 : y ≤ Real.pi / 2) (ha : a ≤ 1) (h : Real.sin y < a) :
    y < Real.arcsin a := by
  have := arcsin_lt_arcsin' (Real.neg_one_le_sin y) h ha
  rwa [Real.arcsin_sin hy hy2] at this

theorem atan2_arcsin (u : ℝ) (h0 : 0 ≤ u) (h1 : u ≤ 1) :
    atan2 u (Real.sqrt (1 - u * u)) = Real.arcsin u := by
  rcases eq_or_lt_of_le h1 with he | hlt
  · subst he
    rw [show (1 : ℝ) - 1 * 1 = 0 by ring, Real.sqrt_zero, atan2]
    rw [if_neg (lt_irrefl 0), if_neg (by simp), if_neg (by simp),
      if_pos ⟨rfl, one_pos⟩, Real.arcsin_one]
  · have hpos : 0 < Real.sqrt (1 - u * u) := by
      apply Real.sqrt_pos.mpr
      nlinarith
    rw [atan2, if_pos hpos]
    rw [show (1 : ℝ) - u * u = 1 - u ^ 2 by ring]
    rw [Real.arcsin_eq_arctan ⟨by linarith, hlt⟩]

theorem calculateDistance_same_lng (lat1 lat2 lng : ℝ) (h : lat2 ≤ lat1)
    (hb : (lat1 - lat2) * Real.pi / 360 < Real.pi / 2) :
    calculateDistance ⟨lat1, lng⟩ ⟨lat2, lng⟩ =
      6371000 * ((lat1 - lat2) * Real.pi / 180) := by
  have hpi := Real.pi_pos
  set θ := (lat1 - lat2) * Real.pi / 360 with hθ
  have hθ0 : 0 ≤ θ := by
    have hd : 0 ≤ lat1 - lat2 := by linarith
    rw [hθ]
    positivity
  have hs : 0 ≤ Real.sin θ :=
    Real.sin_nonneg_of_nonneg_of_le_pi hθ0 (by linarith)
  have hc : 0 ≤ Real.cos θ :=
    Real.cos_nonneg_of_mem_Icc ⟨by linarith, le_of_lt hb⟩
  have harg : (lat2 - lat1) * Real.pi / 180 / 2 = -θ := by
    rw [hθ]; ring
  have hprod : Real.sin (-θ) * Real.sin (-θ) = Real.sin θ * Real.sin θ := by
    rw [Real.sin_neg]; ring
  have key1 : Real.sqrt (Real.sin θ * Real.sin θ) = Real.sin θ :=
    Real.sqrt_mul_self hs
  have key2 : Real.sqrt (1 - Real.sin θ * Real.sin θ) = Real.cos θ := by
    have hsq : 1 - Real.sin θ * Real.sin θ = Real.cos θ * Real.cos θ := by
      have := Real.sin_sq_add_cos_sq θ
      nlinarith
    rw [hsq, Real.sqrt_mul_self hc]
  have main : calculateDistance ⟨lat1, lng⟩ ⟨lat2, lng⟩ =
      6371000 * (2 * θ) := by
    simp only [calculateDistance, sub_self, zero_mul, zero_div, Real.sin_zero,
      mul_zero, add_zero]
    rw [harg, hprod, key1, key2, atan2_sin_cos hθ0 hb]
  rw [main, hθ]
  ring

theorem calculateDistance_same_lat (lat l1 l2 : ℝ) (h : l1 ≤ l2)
    (hcos : 0 ≤ Real.cos (lat * Real.pi / 180))
    (hlam : (l2 - l1) * Real.pi / 360 ≤ Real.pi) :
    calculateDistance ⟨lat, l1⟩ ⟨lat, l2⟩ =
      2 * 6371000 * Real.arcsin
        (Real.cos (lat * Real.pi / 180) *
          Real.sin ((l2 - l1) * Real.pi / 360)) := by
  have hpi := Real.pi_pos
  set φ := lat * Real.pi / 180 with hφ
  set lam := (l2 - l1) * Real.pi / 360 with hlamdef
  have hlam0 : 0 ≤ lam := by
    have hd : 0 ≤ l2 - l1 := by linarith
    rw [hlamdef]
    positivity
  have hsin0 : 0 ≤ Real.sin lam :=
    Real.sin_nonneg_of_nonneg_of_le_pi hlam0 hlam
  set u := Real.cos φ * Real.sin lam with hu
  have hu0 : 0 ≤ u := mul_nonneg hcos hsin0
  have hu1 : u ≤ 1 := by
    calc u ≤ 1 * 1 := by
          apply mul_le_mul (Real.cos_le_one φ) (Real.sin_le_one lam) hsin0
          norm_num
      _ = 1 := by norm_num
  have harg : (l2 - l1) * Real.pi / 180 / 2 = lam := by rw [hlamdef]; ring
  have main : calculateDistance ⟨lat, l1⟩ ⟨lat, l2⟩ =
      6371000 * (2 * atan2 (Real.sqrt (u * u)) (Real.sqrt (1 - u * u))) := by
    simp only [calculateDistance, sub_self, zero_mul, zero_div, Real.sin_zero,
      mul_zero, zero_add]
    rw [harg]
    have hrw : Real.cos φ * Real.cos φ * Real.sin lam * Real.sin lam =
        u * u := by
      rw [hu]; ring
    rw [hrw]
  rw [main, Real.sqrt_mul_self hu0, atan2_arcsin u hu0 hu1]
  ring

theorem calculateOffsetPoint_south (lat lng dd : ℝ)
    (h1 : -(Real.pi/2) ≤ (lat - dd) * Real.pi / 180)
    (h2 : (lat - dd) * Real.pi / 180 ≤ Real.pi / 2)
    (hx : 0 < Real.cos (dd * Real.pi / 180) -
      Real.sin (lat * Real.pi / 180) *
        Real.sin ((lat - dd) * Real.pi / 180)) :
    calculateOffsetPoint ⟨lat, lng⟩ 180 (6371000 * (dd * Real.pi / 180)) =
      ⟨lat - dd, lng⟩ := by
  have hpi := Real.pi_pos
  have hδ : 6371000 * (dd * Real.pi / 180) / 6371000 =
      dd * Real.pi / 180 := by
    field_simp
    ring
  have hbr : (180 : ℝ) * Real.pi / 180 = Real.pi := by ring
  have harg : Real.sin (lat * Real.pi / 180) * Real.cos (dd * Real.pi / 180) +
      Real.cos (lat * Real.pi / 180) * Real.sin (dd * Real.pi / 180) *
        Real.cos Real.pi =
      Real.sin ((lat - dd) * Real.pi / 180) := by
    rw [Real.cos_pi, show (lat - dd) * Real.pi / 180 =
      lat * Real.pi / 180 - dd * Real.pi / 180 by ring, Real.sin_sub]
    ring
  simp only [calculateOffsetPoint, hδ, hbr, harg, Real.sin_pi, zero_mul,
    Real.arcsin_sin h1 h2]
  rw [atan2_zero_of_pos hx]
  congr 1 <;> (field_simp; try ring)

theorem calculateOffsetPoint_east (lat lng d : ℝ)
    (hx : 0 < Real.cos (d / 6371000) - Real.sin (lat * Real.pi / 180) *
      (Real.sin (lat * Real.pi / 180) * Real.cos (d / 6371000))) :
    calculateOffsetPoint ⟨lat, lng⟩ 90 d =
      ⟨Real.arcsin (Real.sin (lat * Real.pi / 180) *
          Real.cos (d / 6371000)) * 180 / Real.pi,
       lng + Real.arctan ((Real.sin (d / 6371000) *
           Real.cos (lat * Real.pi / 180)) /
         (Real.cos (d / 6371000) - Real.sin (lat * Real.pi / 180) *
           (Real.sin (lat * Real.pi / 180) * Real.cos (d / 6371000)))) *
         180 / Real.pi⟩ := by
  have hpi := Real.pi_pos
  have hbr : (90 : ℝ) * Real.pi / 180 = Real.pi / 2 := by ring
  have habs1 : -1 ≤ Real.sin (lat * Real.pi / 180) *
      Real.cos (d / 6371000) := by
    nlinarith [Real.neg_one_le_sin (lat * Real.pi / 180),
      Real.sin_le_one (lat * Real.pi / 180),
      Real.neg_one_le_cos (d / 6371000), Real.cos_le_one (d / 6371000)]
  have habs2 : Real.sin (lat * Real.pi / 180) *
      Real.cos (d / 6371000) ≤ 1 := by
    nlinarith [Real.neg_one_le_sin (lat * Real.pi / 180),
      Real.sin_le_one (lat * Real.pi / 180),
      Real.neg_one_le_cos (d / 6371000), Real.cos_le_one (d / 6371000)]
  simp only [calculateOffsetPoint, hbr, Real.cos_pi_div_two,
    Real.sin_pi_div_two, mul_zero, add_zero, one_mul,
    Real.sin_arcsin habs1 habs2]
  rw [atan2, if_pos hx]
  congr 1 <;> (field_simp; try ring)

theorem calculateOffsetPoint_west (lat lng d : ℝ)
    (hx : 0 < Real.cos (d / 6371000) - Real.sin (lat * Real.pi / 180) *
      (Real.sin (lat * Real.pi / 180) * Real.cos (d / 6371000))) :
    calculateOffsetPoint ⟨lat, lng⟩ 270 d =
      ⟨Real.arcsin (Real.sin (lat * Real.pi / 180) *
          Real.cos (d / 6371000)) * 180 / Real.pi,
       lng - Real.arctan ((Real.sin (d / 6371000) *
           Real.cos (lat * Real.pi / 180)) /
         (Real.cos (d / 6371000) - Real.sin (lat * Real.pi / 180) *
           (Real.sin (lat * Real.pi / 180) * Real.cos (d / 6371000)))) *
         180 / Real.pi⟩ := by
  have hpi := Real.pi_pos
  have hbr : (270 : ℝ) * Real.pi / 180 = Real.pi + Real.pi / 2 := by ring
  have hcos : Real.cos (Real.pi + Real.pi / 2) = 0 := by
    rw [Real.cos_add, Real.cos_pi_div_two, Real.sin_pi_div_two]
    simp [Real.cos_pi, Real.sin_pi]
  have hsin : Real.sin (Real.pi + Real.pi / 2) = -1 := by
    rw [Real.sin_add, Real.cos_pi_div_two, Real.sin_pi_div_two]
    simp [Real.cos_pi, Real.sin_pi]
  have habs1 : -1 ≤ Real.sin (lat * Real.pi / 180) *
      Real.cos (d / 6371000) := by
    nlinarith [Real.neg_one_le_sin (lat * Real.pi / 180),
      Real.sin_le_one (lat * Real.pi / 180),
      Real.neg_one_le_cos (d / 6371000), Real.cos_le_one (d / 6371000)]
  have habs2 : Real.sin (lat * Real.pi / 180) *
      Real.cos (d / 6371000) ≤ 1 := by
    nlinarith [Real.neg_one_le_sin (lat * Real.pi / 180),
      Real.sin_le_one (lat * Real.pi / 180),
      Real.neg_one_le_cos (d / 6371000), Real.cos_le_one (d / 6371000)]
  simp only [calculateOffsetPoint, hbr, hcos, hsin, mul_zero, add_zero,
    neg_one_mul, neg_mul, Real.sin_arcsin habs1 habs2]
  rw [atan2, if_pos hx, neg_div, Real.arctan_neg]
  congr 1 <;> (field_simp; try ring)

/-! ## The comb AOI used for the line-count analysis -/


/-- Lower bound for sin on a small positive interval. -/
theorem sin_lb {x lo hi : ℝ} (h1 : lo < x) (h2 : x < hi) (h0 : 0 < lo)
    (hhi : hi ≤ 1) : lo - hi ^ 3 / 4 < Real.sin x := by
  have hs := Real.sin_gt_sub_cube (lt_trans h0 h1)
    (le_of_lt (lt_of_lt_of_le h2 hhi))
  have hc : x ^ 3 < hi ^ 3 :=
    pow_lt_pow_left₀ h2 (by linarith) (by norm_num)
  linarith

/-- Upper bound for sin on a positive interval. -/
theorem sin_ub {x hi : ℝ} (h2 : x < hi) (h0 : 0 < x) : Real.sin x < hi :=
  lt_trans (Real.sin_lt h0) h2

/-- Lower bound for cos near zero. -/
theorem cos_lb {x hi : ℝ} (h2 : x < hi) (h0 : 0 ≤ x) :
    1 - hi ^ 2 / 2 < Real.cos x := by
  have hs := Real.one_sub_sq_div_two_le_cos (x := x)
  have hc : x ^ 2 < hi ^ 2 :=
    pow_lt_pow_left₀ h2 h0 (by norm_num)
  linarith

/-- The comb-shaped AOI ring: a bottom bar with two teeth and one tall
spike, all axis-aligned (latitudes 0, 5e-6, 23e-6, 46e-6 degrees;
longitudes 0, 4e-6, 8e-6, 10e-6, 29.5e-6, 33.5e-6, 63e-6 degrees). -/
def combRing : List Coordinate :=
  [⟨0, 0⟩, ⟨0, 63/1000000⟩, ⟨5/1000000, 63/1000000⟩,
   ⟨5/1000000, 67/2000000⟩, ⟨23/1000000, 67/2000000⟩,
   ⟨23/1000000, 59/2000000⟩, ⟨5/1000000, 59/2000000⟩,
   ⟨5/1000000, 10/1000000⟩, ⟨46/1000000, 10/1000000⟩,
   ⟨46/1000000, 8/1000000⟩, ⟨5/1000000, 8/1000000⟩,
   ⟨5/1000000, 4/1000000⟩, ⟨23/1000000, 4/1000000⟩, ⟨23/1000000, 0⟩]

/-- The comb AOI polygon with its consistent bounding box. -/
def combPolygon : Polygon :=
  { coordinates := [combRing], area := calculatePolygonArea combRing,
    bounds := ⟨46/1000000, 0, 63/1000000, 0⟩ }

/-- The perpendicular (north–south) coverage width of the comb AOI. -/
def covC : ℝ := 6371000 * (46/1000000 * Real.pi / 180)

/-- The haversine quantity of the comb AOI's east–west extent. -/
def qC : ℝ := Real.cos (46/1000000 * Real.pi / 180) *
  Real.sin ((63/1000000 - 0) * Real.pi / 360)

/-- The east–west base line length of the comb AOI. -/
def baseC : ℝ := 2 * 6371000 * Real.arcsin qC

/-- Half the buffered raw line length. -/
def halfC : ℝ := (baseC + covC * 0.2) / 2

/-- The central angle of the half line length. -/
def deltaC : ℝ := halfC / 6371000

theorem covComb_eq : coverageWidthFor combPolygon 90 = covC := by
  rw [coverageWidthFor, if_neg (by norm_num)]
  show calculateDistance ⟨combPolygon.bounds.north, combPolygon.bounds.west⟩
    ⟨combPolygon.bounds.south, combPolygon.bounds.west⟩ = covC
  rw [show combPolygon.bounds = ⟨46/1000000, 0, 63/1000000, 0⟩ from rfl]
  have := calculateDistance_same_lng (46/1000000) 0 0 (by norm_num)
    (by nlinarith [Real.pi_pos])
  simp only [sub_zero] at this
  rw [this, covC]

theorem baseComb_eq :
    calculateDistance ⟨46/1000000, 0⟩ ⟨46/1000000, 63/1000000⟩ = baseC := by
  have hcos : 0 ≤ Real.cos (46/1000000 * Real.pi / 180) := by
    apply Real.cos_nonneg_of_mem_Icc
    constructor <;> nlinarith [Real.pi_pos, Real.pi_le_four]
  have := calculateDistance_same_lat (46/1000000) 0 (63/1000000)
    (by norm_num) hcos (by nlinarith [Real.pi_pos])
  simp only [sub_zero] at this
  rw [this, baseC, qC]
  norm_num

theorem pi_lo : (3.14 : ℝ) < Real.pi := Real.pi_gt_d2
theorem pi_hi : Real.pi < 3.15 := Real.pi_lt_d2

theorem covC_bounds : 5.112 < covC ∧ covC < 5.129 := by
  rw [covC]
  constructor <;> nlinarith [pi_lo, pi_hi]

/-- lamstar is 31.5e-6 degrees in radians. -/
def lamstar : ℝ := (63/1000000 - 0) * Real.pi / 360

theorem lamstar_bounds : 5.494e-7 < lamstar ∧ lamstar < 5.513e-7 := by
  rw [lamstar]
  constructor <;> nlinarith [pi_lo, pi_hi]

theorem sin_lamstar_bounds :
    5.493e-7 < Real.sin lamstar ∧ Real.sin lamstar < 5.513e-7 := by
  obtain ⟨h1, h2⟩ := lamstar_bounds
  constructor
  · have := sin_lb h1 h2 (by norm_num) (by norm_num)
    nlinarith
  · exact sin_ub h2 (by linarith)

/-- phiN is 46e-6 degrees in radians. -/
def phiN : ℝ := 46/1000000 * Real.pi / 180

/-- phiC is 23e-6 degrees in radians. -/
def phiC : ℝ := 23/1000000 * Real.pi / 180

theorem phiN_bounds : 8.024e-7 < phiN ∧ phiN < 8.05e-7 := by
  rw [phiN]
  constructor <;> nlinarith [pi_lo, pi_hi]

theorem phiC_bounds : 4.012e-7 < phiC ∧ phiC < 4.025e-7 := by
  rw [phiC]
  constructor <;> nlinarith [pi_lo, pi_hi]

theorem sin_phiN_bounds :
    8.02e-7 < Real.sin phiN ∧ Real.sin phiN < 8.05e-7 := by
  obtain ⟨h1, h2⟩ := phiN_bounds
  constructor
  · have := sin_lb h1 h2 (by norm_num) (by norm_num)
    nlinarith
  · exact sin_ub h2 (by linarith)

theorem sin_phiC_bounds :
    4.01e-7 < Real.sin phiC ∧ Real.sin phiC < 4.025e-7 := by
  obtain ⟨h1, h2⟩ := phiC_bounds
  constructor
  · have := sin_lb h1 h2 (by norm_num) (by norm_num)
    nlinarith
  · exact sin_ub h2 (by linarith)

theorem cos_phiN_bounds :
    1 - 3.3e-13 < Real.cos phiN ∧ Real.cos phiN ≤ 1 := by
  obtain ⟨h1, h2⟩ := phiN_bounds
  constructor
  · have := cos_lb h2 (by linarith)
    nlinarith
  · exact Real.cos_le_one _

theorem qC_bounds : 5.492e-7 < qC ∧ qC < 5.513e-7 := by
  have hq : qC = Real.cos phiN * Real.sin lamstar := rfl
  obtain ⟨hs1, hs2⟩ := sin_lamstar_bounds
  obtain ⟨hc1, hc2⟩ := cos_phiN_bounds
  rw [hq]
  constructor <;> nlinarith

theorem arcsin_qC_bounds :
    5.492e-7 < Real.arcsin qC ∧ Real.arcsin qC < 5.514e-7 := by
  obtain ⟨h1, h2⟩ := qC_bounds
  constructor
  · calc (5.492e-7 : ℝ) < qC := h1
      _ ≤ Real.arcsin qC := le_arcsin (by linarith) (by linarith)
  · apply arcsin_lt_of_lt_sin (by linarith) (by norm_num)
      (by nlinarith [Real.pi_gt_three])
    have := Real.sin_gt_sub_cube (show (0:ℝ) < 5.514e-7 by norm_num)
      (by norm_num)
    nlinarith

theorem deltaC_eq : deltaC = Real.arcsin qC + covC / 63710000 := by
  rw [deltaC, halfC, baseC]
  ring

theorem deltaC_bounds : 6.294e-7 < deltaC ∧ deltaC < 6.32e-7 := by
  rw [deltaC_eq]
  obtain ⟨h1, h2⟩ := arcsin_qC_bounds
  obtain ⟨h3, h4⟩ := covC_bounds
  constructor <;> nlinarith

theorem sin_deltaC_bounds :
    6.293e-7 < Real.sin deltaC ∧ Real.sin deltaC < 6.32e-7 := by
  obtain ⟨h1, h2⟩ := deltaC_bounds
  constructor
  · have := sin_lb h1 h2 (by norm_num) (by norm_num)
    nlinarith
  · exact sin_ub h2 (by linarith)

theorem cos_deltaC_bounds :
    1 - 2e-13 < Real.cos deltaC ∧ Real.cos deltaC < 1 := by
  obtain ⟨h1, h2⟩ := deltaC_bounds
  constructor
  · have := cos_lb h2 (by linarith)
    nlinarith
  · exact cos_lt_one' (by linarith) (by nlinarith [Real.pi_gt_three])


/-! ## jsMod at the concrete headings -/

theorem jsMod_small {a b : ℝ} (h0 : 0 ≤ a) (h1 : a < b) : jsMod a b = a := by
  have hb : 0 < b := lt_of_le_of_lt h0 h1
  have hq0 : (0 : ℝ) ≤ a / b := by positivity
  have hq1 : a / b < 1 := by
    rw [div_lt_one hb]
    exact h1
  rw [jsMod, jsTrunc, if_pos hq0,
    Int.floor_eq_zero_iff.mpr ⟨hq0, hq1⟩]
  simp

theorem jsMod_180 : jsMod (90 + 90 : ℝ) 360 = 180 := by
  rw [show (90 + 90 : ℝ) = 180 by norm_num, jsMod_small] <;> norm_num

theorem jsMod_270 : jsMod (90 + 180 : ℝ) 360 = 270 := by
  rw [show (90 + 180 : ℝ) = 270 by norm_num, jsMod_small] <;> norm_num

/-! ## Ray casting against the comb ring, band by band -/

theorem ring_mid_X0 {L : ℝ} (h1 : 5/1000000 < L) (h2 : L < 23/1000000) :
    isPointInRing ⟨L, 0⟩ combRing = true := by
  have f0 : ¬(L < 0) := by linarith
  have f5' : ¬(L < 1/200000) := by linarith
  have g5 : (1/200000 : ℝ) ≤ L := by linarith
  have t46' : L < 23/500000 := by linarith
  norm_num [isPointInRing, combRing,
    show List.range 14 = [0,1,2,3,4,5,6,7,8,9,10,11,12,13] from rfl,
    f0, f5', g5, h2, t46']

theorem ring_mid_tooth1gap {L X : ℝ} (h1 : 5/1000000 < L)
    (h2 : L < 23/1000000) (hX1 : 1/100000 < X) (hX2 : X < 59/2000000) :
    isPointInRing ⟨L, X⟩ combRing = false := by
  have f0 : ¬(L < 0) := by linarith
  have f5' : ¬(L < 1/200000) := by linarith
  have g5 : (1/200000 : ℝ) ≤ L := by linarith
  have t46' : L < 23/500000 := by linarith
  have x0 : ¬(X < 0) := by linarith
  have x4 : ¬(X < 1/250000) := by linarith
  have x8 : ¬(X < 1/125000) := by linarith
  have x10 : ¬(X < 1/100000) := by linarith
  have x335 : X < 67/2000000 := by linarith
  norm_num [isPointInRing, combRing,
    show List.range 14 = [0,1,2,3,4,5,6,7,8,9,10,11,12,13] from rfl,
    f0, f5', g5, h2, t46', x0, x4, x8, x10, hX2, x335]

theorem ring_mid_tooth2 {L X : ℝ} (h1 : 5/1000000 < L)
    (h2 : L < 23/1000000) (hX1 : 59/2000000 < X) (hX2 : X < 67/2000000) :
    isPointInRing ⟨L, X⟩ combRing = true := by
  have f0 : ¬(L < 0) := by linarith
  have f5' : ¬(L < 1/200000) := by linarith
  have g5 : (1/200000 : ℝ) ≤ L := by linarith
  have t46' : L < 23/500000 := by linarith
  have x0 : ¬(X < 0) := by linarith
  have x4 : ¬(X < 1/250000) := by linarith
  have x8 : ¬(X < 1/125000) := by linarith
  have x10 : ¬(X < 1/100000) := by linarith
  have x295 : ¬(X < 59/2000000) := by linarith
  norm_num [isPointInRing, combRing,
    show List.range 14 = [0,1,2,3,4,5,6,7,8,9,10,11,12,13] from rfl,
    f0, f5', g5, h2, t46', x0, x4, x8, x10, x295, hX2]

theorem ring_mid_east {L X : ℝ} (h1 : 5/1000000 < L)
    (h2 : L < 23/1000000) (hX : 67/2000000 < X) :
    isPointInRing ⟨L, X⟩ combRing = false := by
  have f0 : ¬(L < 0) := by linarith
  have f5' : ¬(L < 1/200000) := by linarith
  have g5 : (1/200000 : ℝ) ≤ L := by linarith
  have t46' : L < 23/500000 := by linarith
  have x0 : ¬(X < 0) := by linarith
  have x4 : ¬(X < 1/250000) := by linarith
  have x8 : ¬(X < 1/125000) := by linarith
  have x10 : ¬(X < 1/100000) := by linarith
  have x295 : ¬(X < 59/2000000) := by linarith
  have x335 : ¬(X < 67/2000000) := by linarith
  norm_num [isPointInRing, combRing,
    show List.range 14 = [0,1,2,3,4,5,6,7,8,9,10,11,12,13] from rfl,
    f0, f5', g5, h2, t46', x0, x4, x8, x10, x295, x335]

theorem ring_top_X0 {L : ℝ} (h1 : 23/1000000 < L) (h2 : L < 46/1000000) :
    isPointInRing ⟨L, 0⟩ combRing = false := by
  have f0 : ¬(L < 0) := by linarith
  have f5' : ¬(L < 1/200000) := by linarith
  have g5 : (1/200000 : ℝ) ≤ L := by linarith
  have f23 : ¬(L < 23/1000000) := by linarith
  have t46' : L < 23/500000 := by linarith
  norm_num [isPointInRing, combRing,
    show List.range 14 = [0,1,2,3,4,5,6,7,8,9,10,11,12,13] from rfl,
    f0, f5', g5, f23, t46']

theorem ring_top_east {L X : ℝ} (h1 : 23/1000000 < L) (h2 : L < 46/1000000)
    (hX : 1/100000 < X) :
    isPointInRing ⟨L, X⟩ combRing = false := by
  have f0 : ¬(L < 0) := by linarith
  have f5' : ¬(L < 1/200000) := by linarith
  have g5 : (1/200000 : ℝ) ≤ L := by linarith
  have f23 : ¬(L < 23/1000000) := by linarith
  have t46' : L < 23/500000 := by linarith
  have x0 : ¬(X < 0) := by linarith
  have x8 : ¬(X < 1/125000) := by linarith
  have x10 : ¬(X < 1/100000) := by linarith
  norm_num [isPointInRing, combRing,
    show List.range 14 = [0,1,2,3,4,5,6,7,8,9,10,11,12,13] from rfl,
    f0, f5', g5, f23, t46', x0, x8, x10]

theorem ring_bot_X0 : isPointInRing ⟨0, 0⟩ combRing = true := by
  norm_num [isPointInRing, combRing,
    show List.range 14 = [0,1,2,3,4,5,6,7,8,9,10,11,12,13] from rfl]

theorem ring_bot_mid {X : ℝ} (hX1 : 0 < X) (hX2 : X < 63/1000000) :
    isPointInRing ⟨0, X⟩ combRing = true := by
  have x0 : ¬(X < 0) := by linarith
  norm_num [isPointInRing, combRing,
    show List.range 14 = [0,1,2,3,4,5,6,7,8,9,10,11,12,13] from rfl,
    x0, hX2]

theorem ring_bot_east : isPointInRing ⟨0, 63/1000000⟩ combRing = false := by
  norm_num [isPointInRing, combRing,
    show List.range 14 = [0,1,2,3,4,5,6,7,8,9,10,11,12,13] from rfl]

/-- The comb AOI has no holes, so the ring test decides interiority. -/
theorem inPoly_comb (pt : Coordinate) :
    isPointInPolygonRings pt combPolygon.coordinates =
      isPointInRing pt combRing := by
  show isPointInPolygonRings pt [combRing] = isPointInRing pt combRing
  cases h : isPointInRing pt combRing <;>
    simp [isPointInPolygonRings, h]

/-! ## Evaluating the segmentation loop on short waypoint lists -/

theorem interiorRuns_ttf (inside : Coordinate → Bool) (a b c : Coordinate)
    (ha : inside a = true) (hb : inside b = true) (hc : inside c = false) :
    interiorRuns inside [a, b, c] = [[a, b]] := by
  simp [interiorRuns, interiorRunsStep, ha, hb, hc]

theorem interiorRuns_tfff (inside : Coordinate → Bool) (a b c d : Coordinate)
    (ha : inside a = true) (hb : inside b = false) (hc : inside c = false)
    (hd : inside d = false) :
    interiorRuns inside [a, b, c, d] = [] := by
  simp [interiorRuns, interiorRunsStep, ha, hb, hc, hd]

theorem interiorRuns_fff (inside : Coordinate → Bool) (a b c : Coordinate)
    (ha : inside a = false) (hb : inside b = false) (hc : inside c = false) :
    interiorRuns inside [a, b, c] = [] := by
  simp [interiorRuns, interiorRunsStep, ha, hb, hc]

theorem interiorRuns_ffff (inside : Coordinate → Bool) (a b c d : Coordinate)
    (ha : inside a = false) (hb : inside b = false) (hc : inside c = false)
    (hd : inside d = false) :
    interiorRuns inside [a, b, c, d] = [] := by
  simp [interiorRuns, interiorRunsStep, ha, hb, hc, hd]

/-! ## Waypoint densification along a horizontal segment -/

theorem waypoints3_zero (L X ws : ℝ)
    (h : ⌈calculateDistance ⟨L, 0⟩ ⟨L, X⟩ / ws⌉ = 2) :
    generateWaypointsAlongLine ⟨L, 0⟩ ⟨L, X⟩ ws =
      [⟨L, 0⟩, ⟨L, X / 2⟩, ⟨L, X⟩] := by
  simp only [generateWaypointsAlongLine, h]
  rw [show ((2 : ℤ) + 1).toNat = 3 from rfl,
    show List.range 3 = [0, 1, 2] from rfl]
  norm_num
  ring

theorem waypoints4_zero (L X ws : ℝ)
    (h : ⌈calculateDistance ⟨L, 0⟩ ⟨L, X⟩ / ws⌉ = 3) :
    generateWaypointsAlongLine ⟨L, 0⟩ ⟨L, X⟩ ws =
      [⟨L, 0⟩, ⟨L, X / 3⟩, ⟨L, 2 * X / 3⟩, ⟨L, X⟩] := by
  simp only [generateWaypointsAlongLine, h]
  rw [show ((3 : ℤ) + 1).toNat = 4 from rfl,
    show List.range 4 = [0, 1, 2, 3] from rfl]
  norm_num
  constructor
  · ring
  ring

/-! ## The Cohen–Sutherland clip of a horizontal spanning segment -/

theorem csl_accept (fuel : ℕ) (x0 y0 x1 y1 w e s n : ℝ)
    (h0 : computeOutCode x0 y0 w e s n = 0)
    (h1 : computeOutCode x1 y1 w e s n = 0) :
    cohenSutherlandLoop (fuel + 1) x0 y0 x1 y1 w e s n =
      some (⟨y0, x0⟩, ⟨y1, x1⟩) := by
  simp [cohenSutherlandLoop, h0, h1]

theorem csl_step_left (fuel : ℕ) (L x0 x1 w e s n : ℝ)
    (h0 : computeOutCode x0 L w e s n = 1)
    (h1 : computeOutCode x1 L w e s n = 2) :
    cohenSutherlandLoop (fuel + 1) x0 L x1 L w e s n =
      cohenSutherlandLoop fuel w L x1 L w e s n := by
  simp [cohenSutherlandLoop, h0, h1]

theorem csl_step_right (fuel : ℕ) (L x0 x1 w e s n : ℝ)
    (h0 : computeOutCode x0 L w e s n = 0)
    (h1 : computeOutCode x1 L w e s n = 2) :
    cohenSutherlandLoop (fuel + 1) x0 L x1 L w e s n =
      cohenSutherlandLoop fuel x0 L e L w e s n := by
  have a8 : (2 : ℕ) &&& 8 = 0 := by decide
  have a4 : (2 : ℕ) &&& 4 = 0 := by decide
  simp [cohenSutherlandLoop, h0, h1, a8, a4]

theorem outcode_inside (x y w e s n : ℝ) (hx1 : w ≤ x) (hx2 : x ≤ e)
    (hy1 : s ≤ y) (hy2 : y ≤ n) : computeOutCode x y w e s n = 0 := by
  rw [computeOutCode, if_neg (not_lt.mpr hx1), if_neg (not_lt.mpr hx2),
    if_neg (not_lt.mpr hy1), if_neg (not_lt.mpr hy2)]
  decide

theorem outcode_left (x y w e s n : ℝ) (hx : x < w)
    (hy1 : s ≤ y) (hy2 : y ≤ n) : computeOutCode x y w e s n = 1 := by
  rw [computeOutCode, if_pos hx,
    if_neg (not_lt.mpr hy1), if_neg (not_lt.mpr hy2)]
  decide

theorem outcode_right (x y w e s n : ℝ) (hx1 : ¬(x < w)) (hx2 : e < x)
    (hy1 : s ≤ y) (hy2 : y ≤ n) : computeOutCode x y w e s n = 2 := by
  rw [computeOutCode, if_neg hx1, if_pos hx2,
    if_neg (not_lt.mpr hy1), if_neg (not_lt.mpr hy2)]
  decide

theorem clip_horizontal (L x0 x1 w e s n : ℝ)
    (hy1 : s ≤ L) (hy2 : L ≤ n) (hx0 : x0 < w) (hx1 : e < x1)
    (hwe : w ≤ e) :
    cohenSutherlandClip ⟨L, x0⟩ ⟨L, x1⟩ ⟨n, s, e, w⟩ =
      some (⟨L, w⟩, ⟨L, e⟩) := by
  have hoc0 : computeOutCode x0 L w e s n = 1 := outcode_left _ _ _ _ _ _ hx0 hy1 hy2
  have hoc1 : computeOutCode x1 L w e s n = 2 :=
    outcode_right _ _ _ _ _ _ (by linarith) hx1 hy1 hy2
  have hocw : computeOutCode w L w e s n = 0 :=
    outcode_inside _ _ _ _ _ _ le_rfl hwe hy1 hy2
  have hoce : computeOutCode e L w e s n = 0 :=
    outcode_inside _ _ _ _ _ _ hwe le_rfl hy1 hy2
  show cohenSutherlandLoop 1000 x0 L x1 L w e s n = some (⟨L, w⟩, ⟨L, e⟩)
  rw [show (1000 : ℕ) = 999 + 1 from rfl,
    csl_step_left 999 L x0 x1 w e s n hoc0 hoc1,
    show (999 : ℕ) = 998 + 1 from rfl,
    csl_step_right 998 L w x1 w e s n hocw hoc1,
    show (998 : ℕ) = 997 + 1 from rfl,
    csl_accept 997 w L e L w e s n hocw hoce]


/-- The latitude (in degrees) of the comb's northernmost flight line. -/
def L0C : ℝ := Real.arcsin (Real.sin phiN * Real.cos deltaC) * 180 / Real.pi

/-- The latitude (in degrees) of the comb's central flight line. -/
def L1C : ℝ := Real.arcsin (Real.sin phiC * Real.cos deltaC) * 180 / Real.pi

theorem L0C_band : 23/1000000 < L0C ∧ L0C < 46/1000000 := by
  have hpi := Real.pi_pos
  obtain ⟨hs1, hs2⟩ := sin_phiN_bounds
  obtain ⟨hc1, hc2⟩ := cos_deltaC_bounds
  obtain ⟨hp1, hp2⟩ := phiN_bounds
  have harg0 : 0 ≤ Real.sin phiN * Real.cos deltaC := by nlinarith
  have harg1 : Real.sin phiN * Real.cos deltaC ≤ 1 := by nlinarith
  have hlow : 8.0e-7 < Real.arcsin (Real.sin phiN * Real.cos deltaC) := by
    have h1 : (8.0e-7 : ℝ) < Real.sin phiN * Real.cos deltaC := by nlinarith
    calc (8.0e-7 : ℝ) < Real.sin phiN * Real.cos deltaC := h1
      _ ≤ _ := le_arcsin harg0 harg1
  have hhigh : Real.arcsin (Real.sin phiN * Real.cos deltaC) < phiN := by
    have h1 : Real.sin phiN * Real.cos deltaC < Real.sin phiN := by nlinarith
    have h2 := arcsin_lt_arcsin' (by linarith) h1 (Real.sin_le_one _)
    rwa [Real.arcsin_sin (by nlinarith [Real.pi_gt_three])
      (by nlinarith [Real.pi_gt_three])] at h2
  constructor
  · rw [L0C, lt_div_iff hpi]
    nlinarith [pi_hi]
  · rw [L0C, div_lt_iff hpi]
    have hphiN : phiN = 46/1000000 * Real.pi / 180 := rfl
    nlinarith [hhigh, hphiN]

theorem L1C_band : 5/1000000 < L1C ∧ L1C < 23/1000000 := by
  have hpi := Real.pi_pos
  obtain ⟨hs1, hs2⟩ := sin_phiC_bounds
  obtain ⟨hc1, hc2⟩ := cos_deltaC_bounds
  obtain ⟨hp1, hp2⟩ := phiC_bounds
  have harg0 : 0 ≤ Real.sin phiC * Real.cos deltaC := by nlinarith
  have harg1 : Real.sin phiC * Real.cos deltaC ≤ 1 := by nlinarith
  have hlow : 3.9e-7 < Real.arcsin (Real.sin phiC * Real.cos deltaC) := by
    have h1 : (3.9e-7 : ℝ) < Real.sin phiC * Real.cos deltaC := by nlinarith
    calc (3.9e-7 : ℝ) < Real.sin phiC * Real.cos deltaC := h1
      _ ≤ _ := le_arcsin harg0 harg1
  have hhigh : Real.arcsin (Real.sin phiC * Real.cos deltaC) < phiC := by
    have h1 : Real.sin phiC * Real.cos deltaC < Real.sin phiC := by nlinarith
    have h2 := arcsin_lt_arcsin' (by linarith) h1 (Real.sin_le_one _)
    rwa [Real.arcsin_sin (by nlinarith [Real.pi_gt_three])
      (by nlinarith [Real.pi_gt_three])] at h2
  constructor
  · rw [L1C, lt_div_iff hpi]
    nlinarith [pi_hi]
  · rw [L1C, div_lt_iff hpi]
    have hphiC : phiC = 23/1000000 * Real.pi / 180 := rfl
    nlinarith [hhigh, hphiC]

theorem L0C_nonneg : 0 ≤ L0C := by
  have := L0C_band.1
  linarith

theorem L1C_nonneg : 0 ≤ L1C := by
  have := L1C_band.1
  linarith

/-- Any arctangent of a value exceeding 6.29e-7 exceeds the comb's
half-longitude central angle. -/
theorem lamstar_lt_arctan_of {T : ℝ} (hT : 6.29e-7 < T) :
    lamstar < Real.arctan T := by
  obtain ⟨hl1, hl2⟩ := lamstar_bounds
  obtain ⟨hs1, hs2⟩ := sin_lamstar_bounds
  have hcl : 1 - 1.6e-13 < Real.cos lamstar := by
    have := cos_lb hl2 (by linarith)
    nlinarith
  have htan : Real.tan lamstar < 6.29e-7 := by
    rw [Real.tan_eq_sin_div_cos, div_lt_iff (by nlinarith)]
    nlinarith
  have harct : Real.arctan (Real.tan lamstar) = lamstar :=
    Real.arctan_tan (by nlinarith [Real.pi_gt_three])
      (by nlinarith [Real.pi_gt_three])
  calc lamstar = Real.arctan (Real.tan lamstar) := harct.symm
    _ < Real.arctan T := Real.arctan_strictMono (by linarith)

/-- Conversion of the arctangent bound to degrees. -/
theorem gt_half_of_lamstar_lt {A : ℝ} (h : lamstar < A) :
    63/2000000 < A * 180 / Real.pi := by
  have hpi := Real.pi_pos
  rw [lamstar] at h
  rw [lt_div_iff hpi]
  nlinarith

/-- The denominator of the longitude correction term is positive and
at most one. -/
theorem comb_den_bounds {u : ℝ} (h0 : 0 ≤ u) (h1 : u ≤ 8.05e-7) :
    0 < Real.cos deltaC - u * (u * Real.cos deltaC) ∧
      Real.cos deltaC - u * (u * Real.cos deltaC) ≤ 1 := by
  obtain ⟨hc1, hc2⟩ := cos_deltaC_bounds
  have hu2 : u * u ≤ 6.5e-13 := by nlinarith
  have huu : 0 ≤ u * u := mul_nonneg h0 h0
  constructor <;> nlinarith

/-- The longitude correction ratio exceeds 6.29e-7 whenever the cosine
factor is near one. -/
theorem comb_T_gt {u c : ℝ} (h0 : 0 ≤ u) (h1 : u ≤ 8.05e-7)
    (hcc1 : 1 - 3.3e-13 < c) :
    6.29e-7 < Real.sin deltaC * c /
      (Real.cos deltaC - u * (u * Real.cos deltaC)) := by
  obtain ⟨hd1, hd2⟩ := comb_den_bounds h0 h1
  obtain ⟨hs1, hs2⟩ := sin_deltaC_bounds
  have hnum : 6.292e-7 < Real.sin deltaC * c := by nlinarith
  have : Real.sin deltaC * c ≤ Real.sin deltaC * c /
      (Real.cos deltaC - u * (u * Real.cos deltaC)) := by
    rw [le_div_iff hd1]
    nlinarith
  linarith

/-! ## Waypoint-count bounds along the clipped lines -/

theorem D_eq (u : ℝ) :
    calculateDistance ⟨Real.arcsin u * 180 / Real.pi, 0⟩
      ⟨Real.arcsin u * 180 / Real.pi, 63/1000000⟩ =
    2 * 6371000 * Real.arcsin (Real.sqrt (1 - u ^ 2) * Real.sin lamstar) := by
  have hpi := Real.pi_pos
  have harg : Real.arcsin u * 180 / Real.pi * Real.pi / 180 = Real.arcsin u := by
    field_simp
  have hcos : 0 ≤ Real.cos (Real.arcsin u * 180 / Real.pi * Real.pi / 180) := by
    rw [harg, Real.cos_arcsin]
    exact Real.sqrt_nonneg _
  rw [calculateDistance_same_lat _ _ _ (by norm_num) hcos
    (by nlinarith), harg, Real.cos_arcsin]
  rw [show (63/1000000 - 0 : ℝ) * Real.pi / 360 = lamstar from rfl]

theorem D_bounds (u : ℝ) (h0 : 0 ≤ u) (h1 : u ≤ 8.05e-7) :
    5.2 < 2 * 6371000 * Real.arcsin (Real.sqrt (1 - u ^ 2) * Real.sin lamstar) ∧
    2 * 6371000 * Real.arcsin (Real.sqrt (1 - u ^ 2) * Real.sin lamstar) ≤ 7.8 := by
  obtain ⟨hl1, hl2⟩ := lamstar_bounds
  obtain ⟨hs1, hs2⟩ := sin_lamstar_bounds
  have hu2 : u ^ 2 ≤ 6.5e-13 := by nlinarith
  have hg1 : Real.sqrt (1 - u ^ 2) ≤ 1 := Real.sqrt_le_one.mpr (by nlinarith)
  have hg0 : 1 - 6.5e-13 ≤ Real.sqrt (1 - u ^ 2) := by
    have hnn : (0 : ℝ) ≤ 1 - u ^ 2 := by nlinarith
    have h1' : (1 - u ^ 2) ^ 2 ≤ 1 - u ^ 2 := by nlinarith
    calc (1 : ℝ) - 6.5e-13 ≤ 1 - u ^ 2 := by nlinarith
      _ = Real.sqrt ((1 - u ^ 2) ^ 2) := (Real.sqrt_sq hnn).symm
      _ ≤ Real.sqrt (1 - u ^ 2) := Real.sqrt_le_sqrt (by nlinarith)
  have harg0 : 0 ≤ Real.sqrt (1 - u ^ 2) * Real.sin lamstar := by nlinarith
  have harg1 : Real.sqrt (1 - u ^ 2) * Real.sin lamstar ≤ 1 := by nlinarith
  constructor
  · have hlow : 5.49e-7 < Real.sqrt (1 - u ^ 2) * Real.sin lamstar := by
      nlinarith
    have := le_arcsin harg0 harg1
    nlinarith
  · have hub : Real.arcsin (Real.sqrt (1 - u ^ 2) * Real.sin lamstar) ≤
        lamstar := by
      have h1' : Real.sqrt (1 - u ^ 2) * Real.sin lamstar ≤
          Real.sin lamstar := by nlinarith
      have h2' := Real.monotone_arcsin h1'
      rwa [Real.arcsin_sin (by nlinarith [Real.pi_gt_three])
        (by nlinarith [Real.pi_gt_three])] at h2'
    nlinarith

theorem D_ceil_s1 (u : ℝ) (h0 : 0 ≤ u) (h1 : u ≤ 8.05e-7) :
    ⌈calculateDistance ⟨Real.arcsin u * 180 / Real.pi, 0⟩
      ⟨Real.arcsin u * 180 / Real.pi, 63/1000000⟩ / (49/10)⌉ = 2 := by
  rw [D_eq u]
  obtain ⟨hd1, hd2⟩ := D_bounds u h0 h1
  rw [Int.ceil_eq_iff]
  constructor
  · push_cast
    rw [lt_div_iff (by norm_num : (0:ℝ) < 49/10)]
    linarith
  · push_cast
    rw [div_le_iff (by norm_num : (0:ℝ) < 49/10)]
    linarith

theorem D_ceil_s2 (u : ℝ) (h0 : 0 ≤ u) (h1 : u ≤ 8.05e-7) :
    ⌈calculateDistance ⟨Real.arcsin u * 180 / Real.pi, 0⟩
      ⟨Real.arcsin u * 180 / Real.pi, 63/1000000⟩ / (26/10)⌉ = 3 := by
  rw [D_eq u]
  obtain ⟨hd1, hd2⟩ := D_bounds u h0 h1
  rw [Int.ceil_eq_iff]
  constructor
  · push_cast
    rw [lt_div_iff (by norm_num : (0:ℝ) < 26/10)]
    linarith
  · push_cast
    rw [div_le_iff (by norm_num : (0:ℝ) < 26/10)]
    linarith

theorem comb_u0_bounds :
    0 ≤ Real.sin phiN * Real.cos deltaC ∧
      Real.sin phiN * Real.cos deltaC ≤ 8.05e-7 := by
  obtain ⟨hs1, hs2⟩ := sin_phiN_bounds
  obtain ⟨hc1, hc2⟩ := cos_deltaC_bounds
  constructor <;> nlinarith

theorem comb_u1_bounds :
    0 ≤ Real.sin phiC * Real.cos deltaC ∧
      Real.sin phiC * Real.cos deltaC ≤ 8.05e-7 := by
  obtain ⟨hs1, hs2⟩ := sin_phiC_bounds
  obtain ⟨hc1, hc2⟩ := cos_deltaC_bounds
  constructor <;> nlinarith

/-- A step-by-step characterization of flightLineSegmentsAt: supplying the
values of the intermediate mid point, clip result, waypoint list and
filtered runs determines the output. -/
theorem flightLineSegmentsAt_run (polygon : Polygon)
    (heading a es c : ℝ) (n : ℤ) (i : ℕ)
    (mid s0 e0 : Coordinate) (wps : List Coordinate)
    (out : List (List Coordinate))
    (hmid : calculateOffsetPoint
      ⟨(polygon.bounds.north + polygon.bounds.south) / 2,
       (polygon.bounds.east + polygon.bounds.west) / 2⟩
      (jsMod (heading + 90) 360)
      (((i : ℝ) - ((n : ℝ) - 1) / 2) * es) = mid)
    (hclip : cohenSutherlandClip
      (calculateOffsetPoint mid (jsMod (heading + 180) 360)
        (((if heading = 0 ∨ heading = 180 then
            calculateDistance ⟨polygon.bounds.north, polygon.bounds.west⟩
              ⟨polygon.bounds.south, polygon.bounds.west⟩
          else
            calculateDistance ⟨polygon.bounds.north, polygon.bounds.west⟩
              ⟨polygon.bounds.north, polygon.bounds.east⟩) + c * 0.2) / 2))
      (calculateOffsetPoint mid heading
        (((if heading = 0 ∨ heading = 180 then
            calculateDistance ⟨polygon.bounds.north, polygon.bounds.west⟩
              ⟨polygon.bounds.south, polygon.bounds.west⟩
          else
            calculateDistance ⟨polygon.bounds.north, polygon.bounds.west⟩
              ⟨polygon.bounds.north, polygon.bounds.east⟩) + c * 0.2) / 2))
      polygon.bounds = some (s0, e0))
    (hwps : generateWaypointsAlongLine s0 e0 (min a 5) = wps)
    (hruns : (interiorRuns (fun wp =>
        isPointInPolygonRings wp polygon.coordinates) wps).filter
        (fun seg => 1 < seg.length) = out) :
    flightLineSegmentsAt polygon heading a es c n i = out := by
  simp only [flightLineSegmentsAt, hmid, hclip, hwps, hruns]



/-- The base line length if-expression of the comb evaluation. -/
theorem comb_base_if :
    (if (90:ℝ) = 0 ∨ (90:ℝ) = 180 then
      calculateDistance ⟨combPolygon.bounds.north, combPolygon.bounds.west⟩
        ⟨combPolygon.bounds.south, combPolygon.bounds.west⟩
    else
      calculateDistance ⟨combPolygon.bounds.north, combPolygon.bounds.west⟩
        ⟨combPolygon.bounds.north, combPolygon.bounds.east⟩) = baseC := by
  rw [if_neg (by norm_num)]
  show calculateDistance ⟨46/1000000, 0⟩ ⟨46/1000000, 63/1000000⟩ = baseC
  exact baseComb_eq

theorem comb_mid0 : calculateOffsetPoint
    ⟨(combPolygon.bounds.north + combPolygon.bounds.south) / 2,
     (combPolygon.bounds.east + combPolygon.bounds.west) / 2⟩
    (jsMod ((90:ℝ) + 90) 360)
    ((((0:ℕ) : ℝ) - (((3:ℤ) : ℝ) - 1) / 2) * (covC / 2)) =
    ⟨46/1000000, 63/2000000⟩ := by
  have hpi := Real.pi_pos
  show calculateOffsetPoint ⟨(46/1000000 + 0) / 2, (63/1000000 + 0) / 2⟩
    (jsMod ((90:ℝ) + 90) 360)
    ((((0:ℕ) : ℝ) - (((3:ℤ) : ℝ) - 1) / 2) * (covC / 2)) =
    ⟨46/1000000, 63/2000000⟩
  rw [jsMod_180,
    show ((46:ℝ)/1000000 + 0) / 2 = 23/1000000 by norm_num,
    show ((63:ℝ)/1000000 + 0) / 2 = 63/2000000 by norm_num,
    show ((((0:ℕ) : ℝ)) - (((3:ℤ) : ℝ) - 1) / 2) * (covC / 2) =
      6371000 * (-(23/1000000) * Real.pi / 180) by
        rw [covC]; push_cast; ring]
  have e1 : (-(23/1000000) : ℝ) * Real.pi / 180 = -phiC := by
    rw [phiC]; ring
  have e2 : ((23:ℝ)/1000000 - -(23/1000000)) * Real.pi / 180 = phiN := by
    rw [phiN]; ring
  have e3 : (23:ℝ)/1000000 * Real.pi / 180 = phiC := rfl
  rw [calculateOffsetPoint_south (23/1000000) (63/2000000) (-(23/1000000))
    (by nlinarith [pi_hi]) (by nlinarith [pi_hi])
    (by
      rw [e1, e2, e3, Real.cos_neg]
      obtain ⟨hs1, hs2⟩ := sin_phiC_bounds
      obtain ⟨hn1, hn2⟩ := sin_phiN_bounds
      obtain ⟨hp1, hp2⟩ := phiC_bounds
      have := cos_lb hp2 (by linarith)
      nlinarith)]
  norm_num

theorem comb_mid1 : calculateOffsetPoint
    ⟨(combPolygon.bounds.north + combPolygon.bounds.south) / 2,
     (combPolygon.bounds.east + combPolygon.bounds.west) / 2⟩
    (jsMod ((90:ℝ) + 90) 360)
    ((((1:ℕ) : ℝ) - (((3:ℤ) : ℝ) - 1) / 2) * (covC / 2)) =
    ⟨23/1000000, 63/2000000⟩ := by
  have hpi := Real.pi_pos
  show calculateOffsetPoint ⟨(46/1000000 + 0) / 2, (63/1000000 + 0) / 2⟩
    (jsMod ((90:ℝ) + 90) 360)
    ((((1:ℕ) : ℝ) - (((3:ℤ) : ℝ) - 1) / 2) * (covC / 2)) =
    ⟨23/1000000, 63/2000000⟩
  rw [jsMod_180,
    show ((46:ℝ)/1000000 + 0) / 2 = 23/1000000 by norm_num,
    show ((63:ℝ)/1000000 + 0) / 2 = 63/2000000 by norm_num,
    show ((((1:ℕ) : ℝ)) - (((3:ℤ) : ℝ) - 1) / 2) * (covC / 2) =
      6371000 * (0 * Real.pi / 180) by
        rw [covC]; push_cast; ring]
  have e1 : (0 : ℝ) * Real.pi / 180 = 0 := by ring
  have e2 : ((23:ℝ)/1000000 - 0) * Real.pi / 180 = phiC := by
    rw [phiC]; ring
  rw [calculateOffsetPoint_south (23/1000000) (63/2000000) 0
    (by nlinarith [pi_hi]) (by nlinarith [pi_hi])
    (by
      rw [e1, e2, Real.cos_zero]
      obtain ⟨hs1, hs2⟩ := sin_phiC_bounds
      have e3 : (23:ℝ)/1000000 * Real.pi / 180 = phiC := rfl
      rw [e3]
      nlinarith)]
  norm_num

theorem comb_mid2 : calculateOffsetPoint
    ⟨(combPolygon.bounds.north + combPolygon.bounds.south) / 2,
     (combPolygon.bounds.east + combPolygon.bounds.west) / 2⟩
    (jsMod ((90:ℝ) + 90) 360)
    ((((2:ℕ) : ℝ) - (((3:ℤ) : ℝ) - 1) / 2) * (covC / 2)) =
    ⟨0, 63/2000000⟩ := by
  have hpi := Real.pi_pos
  show calculateOffsetPoint ⟨(46/1000000 + 0) / 2, (63/1000000 + 0) / 2⟩
    (jsMod ((90:ℝ) + 90) 360)
    ((((2:ℕ) : ℝ) - (((3:ℤ) : ℝ) - 1) / 2) * (covC / 2)) =
    ⟨0, 63/2000000⟩
  rw [jsMod_180,
    show ((46:ℝ)/1000000 + 0) / 2 = 23/1000000 by norm_num,
    show ((63:ℝ)/1000000 + 0) / 2 = 63/2000000 by norm_num,
    show ((((2:ℕ) : ℝ)) - (((3:ℤ) : ℝ) - 1) / 2) * (covC / 2) =
      6371000 * (23/1000000 * Real.pi / 180) by
        rw [covC]; push_cast; ring]
  have e1 : ((23:ℝ)/1000000 - 23/1000000) * Real.pi / 180 = 0 := by ring
  rw [calculateOffsetPoint_south (23/1000000) (63/2000000) (23/1000000)
    (by nlinarith [pi_hi]) (by nlinarith [pi_hi])
    (by
      rw [e1, Real.sin_zero]
      obtain ⟨hp1, hp2⟩ := phiC_bounds
      have e3 : (23:ℝ)/1000000 * Real.pi / 180 = phiC := rfl
      rw [e3]
      have := cos_lb hp2 (by linarith)
      nlinarith)]
  norm_num



theorem comb_clip0 : cohenSutherlandClip
    (calculateOffsetPoint ⟨46/1000000, 63/2000000⟩ (jsMod ((90:ℝ) + 180) 360)
      (((if (90:ℝ) = 0 ∨ (90:ℝ) = 180 then
          calculateDistance ⟨combPolygon.bounds.north, combPolygon.bounds.west⟩
            ⟨combPolygon.bounds.south, combPolygon.bounds.west⟩
        else
          calculateDistance ⟨combPolygon.bounds.north, combPolygon.bounds.west⟩
            ⟨combPolygon.bounds.north, combPolygon.bounds.east⟩) + covC * 0.2) / 2))
    (calculateOffsetPoint ⟨46/1000000, 63/2000000⟩ 90
      (((if (90:ℝ) = 0 ∨ (90:ℝ) = 180 then
          calculateDistance ⟨combPolygon.bounds.north, combPolygon.bounds.west⟩
            ⟨combPolygon.bounds.south, combPolygon.bounds.west⟩
        else
          calculateDistance ⟨combPolygon.bounds.north, combPolygon.bounds.west⟩
            ⟨combPolygon.bounds.north, combPolygon.bounds.east⟩) + covC * 0.2) / 2))
    combPolygon.bounds = some (⟨L0C, 0⟩, ⟨L0C, 63/1000000⟩) := by
  rw [comb_base_if, show (baseC + covC * 0.2) / 2 = halfC from rfl, jsMod_270]
  have hu := comb_u0_bounds
  have hx : 0 < Real.cos (halfC / 6371000) -
      Real.sin ((46:ℝ)/1000000 * Real.pi / 180) *
      (Real.sin ((46:ℝ)/1000000 * Real.pi / 180) *
        Real.cos (halfC / 6371000)) := by
    show 0 < Real.cos deltaC - Real.sin phiN * (Real.sin phiN * Real.cos deltaC)
    exact (comb_den_bounds (Real.sin_nonneg_of_nonneg_of_le_pi
      (by nlinarith [phiN_bounds, Real.pi_gt_three])
      (by nlinarith [phiN_bounds, Real.pi_gt_three]))
      (by nlinarith [sin_phiN_bounds])).1
  rw [calculateOffsetPoint_west (46/1000000) (63/2000000) halfC hx,
      calculateOffsetPoint_east (46/1000000) (63/2000000) halfC hx]
  have hT : 6.29e-7 < Real.sin (halfC / 6371000) *
      Real.cos ((46:ℝ)/1000000 * Real.pi / 180) /
      (Real.cos (halfC / 6371000) -
        Real.sin ((46:ℝ)/1000000 * Real.pi / 180) *
        (Real.sin ((46:ℝ)/1000000 * Real.pi / 180) *
          Real.cos (halfC / 6371000))) := by
    show 6.29e-7 < Real.sin deltaC * Real.cos phiN /
      (Real.cos deltaC - Real.sin phiN * (Real.sin phiN * Real.cos deltaC))
    exact comb_T_gt (Real.sin_nonneg_of_nonneg_of_le_pi
      (by nlinarith [phiN_bounds, Real.pi_gt_three])
      (by nlinarith [phiN_bounds, Real.pi_gt_three]))
      (by nlinarith [sin_phiN_bounds]) cos_phiN_bounds.1
  have hA := gt_half_of_lamstar_lt (lamstar_lt_arctan_of hT)
  show cohenSutherlandClip ⟨L0C, _⟩ ⟨L0C, _⟩ ⟨46/1000000, 0, 63/1000000, 0⟩ =
    some (⟨L0C, 0⟩, ⟨L0C, 63/1000000⟩)
  exact clip_horizontal L0C _ _ 0 (63/1000000) 0 (46/1000000)
    L0C_nonneg (le_of_lt L0C_band.2) (by linarith) (by linarith) (by norm_num)



theorem comb_clip1 : cohenSutherlandClip
    (calculateOffsetPoint ⟨23/1000000, 63/2000000⟩ (jsMod ((90:ℝ) + 180) 360)
      (((if (90:ℝ) = 0 ∨ (90:ℝ) = 180 then
          calculateDistance ⟨combPolygon.bounds.north, combPolygon.bounds.west⟩
            ⟨combPolygon.bounds.south, combPolygon.bounds.west⟩
        else
          calculateDistance ⟨combPolygon.bounds.north, combPolygon.bounds.west⟩
            ⟨combPolygon.bounds.north, combPolygon.bounds.east⟩) + covC * 0.2) / 2))
    (calculateOffsetPoint ⟨23/1000000, 63/2000000⟩ 90
      (((if (90:ℝ) = 0 ∨ (90:ℝ) = 180 then
          calculateDistance ⟨combPolygon.bounds.north, combPolygon.bounds.west⟩
            ⟨combPolygon.bounds.south, combPolygon.bounds.west⟩
        else
          calculateDistance ⟨combPolygon.bounds.north, combPolygon.bounds.west⟩
            ⟨combPolygon.bounds.north, combPolygon.bounds.east⟩) + covC * 0.2) / 2))
    combPolygon.bounds = some (⟨L1C, 0⟩, ⟨L1C, 63/1000000⟩) := by
  rw [comb_base_if, show (baseC + covC * 0.2) / 2 = halfC from rfl, jsMod_270]
  have hx : 0 < Real.cos (halfC / 6371000) -
      Real.sin ((23:ℝ)/1000000 * Real.pi / 180) *
      (Real.sin ((23:ℝ)/1000000 * Real.pi / 180) *
        Real.cos (halfC / 6371000)) := by
    show 0 < Real.cos deltaC - Real.sin phiC * (Real.sin phiC * Real.cos deltaC)
    exact (comb_den_bounds (Real.sin_nonneg_of_nonneg_of_le_pi
      (by nlinarith [phiC_bounds, Real.pi_gt_three])
      (by nlinarith [phiC_bounds, Real.pi_gt_three]))
      (by nlinarith [sin_phiC_bounds])).1
  rw [calculateOffsetPoint_west (23/1000000) (63/2000000) halfC hx,
      calculateOffsetPoint_east (23/1000000) (63/2000000) halfC hx]
  have hcos1 : 1 - 3.3e-13 < Real.cos phiC := by
    have := cos_lb phiC_bounds.2 (by nlinarith [phiC_bounds])
    nlinarith
  have hT : 6.29e-7 < Real.sin (halfC / 6371000) *
      Real.cos ((23:ℝ)/1000000 * Real.pi / 180) /
      (Real.cos (halfC / 6371000) -
        Real.sin ((23:ℝ)/1000000 * Real.pi / 180) *
        (Real.sin ((23:ℝ)/1000000 * Real.pi / 180) *
          Real.cos (halfC / 6371000))) := by
    show 6.29e-7 < Real.sin deltaC * Real.cos phiC /
      (Real.cos deltaC - Real.sin phiC * (Real.sin phiC * Real.cos deltaC))
    exact comb_T_gt (Real.sin_nonneg_of_nonneg_of_le_pi
      (by nlinarith [phiC_bounds, Real.pi_gt_three])
      (by nlinarith [phiC_bounds, Real.pi_gt_three]))
      (by nlinarith [sin_phiC_bounds]) hcos1
  have hA := gt_half_of_lamstar_lt (lamstar_lt_arctan_of hT)
  show cohenSutherlandClip ⟨L1C, _⟩ ⟨L1C, _⟩ ⟨46/1000000, 0, 63/1000000, 0⟩ =
    some (⟨L1C, 0⟩, ⟨L1C, 63/1000000⟩)
  exact clip_horizontal L1C _ _ 0 (63/1000000) 0 (46/1000000)
    L1C_nonneg (by linarith [L1C_band.2]) (by linarith) (by linarith)
    (by norm_num)

theorem comb_clip2 : cohenSutherlandClip
    (calculateOffsetPoint ⟨0, 63/2000000⟩ (jsMod ((90:ℝ) + 180) 360)
      (((if (90:ℝ) = 0 ∨ (90:ℝ) = 180 then
          calculateDistance ⟨combPolygon.bounds.north, combPolygon.bounds.west⟩
            ⟨combPolygon.bounds.south, combPolygon.bounds.west⟩
        else
          calculateDistance ⟨combPolygon.bounds.north, combPolygon.bounds.west⟩
            ⟨combPolygon.bounds.north, combPolygon.bounds.east⟩) + covC * 0.2) / 2))
    (calculateOffsetPoint ⟨0, 63/2000000⟩ 90
      (((if (90:ℝ) = 0 ∨ (90:ℝ) = 180 then
          calculateDistance ⟨combPolygon.bounds.north, combPolygon.bounds.west⟩
            ⟨combPolygon.bounds.south, combPolygon.bounds.west⟩
        else
          calculateDistance ⟨combPolygon.bounds.north, combPolygon.bounds.west⟩
            ⟨combPolygon.bounds.north, combPolygon.bounds.east⟩) + covC * 0.2) / 2))
    combPolygon.bounds = some (⟨(0:ℝ), 0⟩, ⟨(0:ℝ), 63/1000000⟩) := by
  rw [comb_base_if, show (baseC + covC * 0.2) / 2 = halfC from rfl, jsMod_270]
  have hs0 : Real.sin ((0:ℝ) * Real.pi / 180) = 0 := by
    norm_num
  have hc0 : Real.cos ((0:ℝ) * Real.pi / 180) = 1 := by
    norm_num
  have hx : 0 < Real.cos (halfC / 6371000) -
      Real.sin ((0:ℝ) * Real.pi / 180) *
      (Real.sin ((0:ℝ) * Real.pi / 180) * Real.cos (halfC / 6371000)) := by
    rw [hs0]
    show 0 < Real.cos deltaC - 0 * (0 * Real.cos deltaC)
    have := cos_deltaC_bounds.1
    nlinarith
  rw [calculateOffsetPoint_west 0 (63/2000000) halfC hx,
      calculateOffsetPoint_east 0 (63/2000000) halfC hx]
  have hL : Real.arcsin (Real.sin ((0:ℝ) * Real.pi / 180) *
      Real.cos (halfC / 6371000)) * 180 / Real.pi = 0 := by
    rw [hs0, zero_mul, Real.arcsin_zero, zero_mul, zero_div]
  rw [hL]
  have hT : 6.29e-7 < Real.sin (halfC / 6371000) *
      Real.cos ((0:ℝ) * Real.pi / 180) /
      (Real.cos (halfC / 6371000) -
        Real.sin ((0:ℝ) * Real.pi / 180) *
        (Real.sin ((0:ℝ) * Real.pi / 180) * Real.cos (halfC / 6371000))) := by
    rw [hs0, hc0]
    show 6.29e-7 < Real.sin deltaC * 1 /
      (Real.cos deltaC - 0 * (0 * Real.cos deltaC))
    have h1 := sin_deltaC_bounds.1
    have h2 := cos_deltaC_bounds
    rw [mul_one, zero_mul, sub_zero]
    have : Real.sin deltaC ≤ Real.sin deltaC / Real.cos deltaC := by
      rw [le_div_iff (by linarith [h2.1])]
      nlinarith [h2.1, h2.2]
    linarith
  have hA := gt_half_of_lamstar_lt (lamstar_lt_arctan_of hT)
  show cohenSutherlandClip ⟨(0:ℝ), _⟩ ⟨(0:ℝ), _⟩
    ⟨46/1000000, 0, 63/1000000, 0⟩ =
    some (⟨(0:ℝ), 0⟩, ⟨(0:ℝ), 63/1000000⟩)
  exact clip_horizontal 0 _ _ 0 (63/1000000) 0 (46/1000000)
    le_rfl (by norm_num) (by linarith) (by linarith) (by norm_num)



theorem interiorRuns_tttf (inside : Coordinate → Bool) (a b c d : Coordinate)
    (ha : inside a = true) (hb : inside b = true) (hc : inside c = true)
    (hd : inside d = false) :
    interiorRuns inside [a, b, c, d] = [[a, b, c]] := by
  simp [interiorRuns, interiorRunsStep, ha, hb, hc, hd]

theorem D2_eq : calculateDistance ⟨(0:ℝ), 0⟩ ⟨(0:ℝ), 63/1000000⟩ =
    2 * 6371000 * lamstar := by
  have hpi := Real.pi_pos
  have hc : 0 ≤ Real.cos ((0:ℝ) * Real.pi / 180) := by norm_num
  rw [calculateDistance_same_lat 0 0 (63/1000000) (by norm_num) hc
    (by nlinarith)]
  rw [show ((0:ℝ) * Real.pi / 180) = 0 by ring, Real.cos_zero, one_mul]
  rw [show ((63:ℝ)/1000000 - 0) * Real.pi / 360 = lamstar from rfl]
  rw [Real.arcsin_sin (by nlinarith [lamstar_bounds, Real.pi_gt_three])
    (by nlinarith [lamstar_bounds, Real.pi_gt_three])]

theorem D2_ceil_s1 :
    ⌈calculateDistance ⟨(0:ℝ), 0⟩ ⟨(0:ℝ), 63/1000000⟩ / (49/10)⌉ = 2 := by
  rw [D2_eq, Int.ceil_eq_iff]
  obtain ⟨h1, h2⟩ := lamstar_bounds
  constructor
  · push_cast
    rw [lt_div_iff (by norm_num : (0:ℝ) < 49/10)]
    nlinarith
  · push_cast
    rw [div_le_iff (by norm_num : (0:ℝ) < 49/10)]
    nlinarith

theorem D2_ceil_s2 :
    ⌈calculateDistance ⟨(0:ℝ), 0⟩ ⟨(0:ℝ), 63/1000000⟩ / (26/10)⌉ = 3 := by
  rw [D2_eq, Int.ceil_eq_iff]
  obtain ⟨h1, h2⟩ := lamstar_bounds
  constructor
  · push_cast
    rw [lt_div_iff (by norm_num : (0:ℝ) < 26/10)]
    nlinarith
  · push_cast
    rw [div_le_iff (by norm_num : (0:ℝ) < 26/10)]
    nlinarith

theorem comb_wps0_s1 : generateWaypointsAlongLine ⟨L0C, 0⟩ ⟨L0C, 63/1000000⟩
    (min (49/10) 5) =
    [⟨L0C, 0⟩, ⟨L0C, 63/2000000⟩, ⟨L0C, 63/1000000⟩] := by
  rw [show min (49/10 : ℝ) 5 = 49/10 by norm_num]
  have hceil : ⌈calculateDistance ⟨L0C, 0⟩ ⟨L0C, 63/1000000⟩ / (49/10)⌉ = 2 :=
    D_ceil_s1 _ comb_u0_bounds.1 comb_u0_bounds.2
  rw [waypoints3_zero _ _ _ hceil]
  norm_num

theorem comb_wps1_s1 : generateWaypointsAlongLine ⟨L1C, 0⟩ ⟨L1C, 63/1000000⟩
    (min (49/10) 5) =
    [⟨L1C, 0⟩, ⟨L1C, 63/2000000⟩, ⟨L1C, 63/1000000⟩] := by
  rw [show min (49/10 : ℝ) 5 = 49/10 by norm_num]
  have hceil : ⌈calculateDistance ⟨L1C, 0⟩ ⟨L1C, 63/1000000⟩ / (49/10)⌉ = 2 :=
    D_ceil_s1 _ comb_u1_bounds.1 comb_u1_bounds.2
  rw [waypoints3_zero _ _ _ hceil]
  norm_num

theorem comb_wps2_s1 : generateWaypointsAlongLine ⟨(0:ℝ), 0⟩
    ⟨(0:ℝ), 63/1000000⟩ (min (49/10) 5) =
    [⟨0, 0⟩, ⟨0, 63/2000000⟩, ⟨0, 63/1000000⟩] := by
  rw [show min (49/10 : ℝ) 5 = 49/10 by norm_num]
  rw [waypoints3_zero _ _ _ D2_ceil_s1]
  norm_num

theorem comb_wps0_s2 : generateWaypointsAlongLine ⟨L0C, 0⟩ ⟨L0C, 63/1000000⟩
    (min (26/10) 5) =
    [⟨L0C, 0⟩, ⟨L0C, 21/1000000⟩, ⟨L0C, 42/1000000⟩, ⟨L0C, 63/1000000⟩] := by
  rw [show min (26/10 : ℝ) 5 = 26/10 by norm_num]
  have hceil : ⌈calculateDistance ⟨L0C, 0⟩ ⟨L0C, 63/1000000⟩ / (26/10)⌉ = 3 :=
    D_ceil_s2 _ comb_u0_bounds.1 comb_u0_bounds.2
  rw [waypoints4_zero _ _ _ hceil]
  norm_num

theorem comb_wps1_s2 : generateWaypointsAlongLine ⟨L1C, 0⟩ ⟨L1C, 63/1000000⟩
    (min (26/10) 5) =
    [⟨L1C, 0⟩, ⟨L1C, 21/1000000⟩, ⟨L1C, 42/1000000⟩, ⟨L1C, 63/1000000⟩] := by
  rw [show min (26/10 : ℝ) 5 = 26/10 by norm_num]
  have hceil : ⌈calculateDistance ⟨L1C, 0⟩ ⟨L1C, 63/1000000⟩ / (26/10)⌉ = 3 :=
    D_ceil_s2 _ comb_u1_bounds.1 comb_u1_bounds.2
  rw [waypoints4_zero _ _ _ hceil]
  norm_num

theorem comb_wps2_s2 : generateWaypointsAlongLine ⟨(0:ℝ), 0⟩
    ⟨(0:ℝ), 63/1000000⟩ (min (26/10) 5) =
    [⟨0, 0⟩, ⟨0, 21/1000000⟩, ⟨0, 42/1000000⟩, ⟨0, 63/1000000⟩] := by
  rw [show min (26/10 : ℝ) 5 = 26/10 by norm_num]
  rw [waypoints4_zero _ _ _ D2_ceil_s2]
  norm_num



/-- The interiority predicate of the comb polygon is the ring test. -/
theorem comb_pred_eq : (fun wp => isPointInPolygonRings wp
    combPolygon.coordinates) = (fun wp => isPointInRing wp combRing) :=
  funext inPoly_comb

theorem comb_runs0_s1 : (interiorRuns (fun wp =>
    isPointInPolygonRings wp combPolygon.coordinates)
    [⟨L0C, 0⟩, ⟨L0C, 63/2000000⟩, ⟨L0C, 63/1000000⟩]).filter
    (fun seg => 1 < seg.length) = [] := by
  rw [comb_pred_eq]
  obtain ⟨hb1, hb2⟩ := L0C_band
  rw [interiorRuns_fff _ _ _ _ (ring_top_X0 hb1 hb2)
    (ring_top_east hb1 hb2 (by norm_num))
    (ring_top_east hb1 hb2 (by norm_num))]
  rfl

theorem comb_runs1_s1 : (interiorRuns (fun wp =>
    isPointInPolygonRings wp combPolygon.coordinates)
    [⟨L1C, 0⟩, ⟨L1C, 63/2000000⟩, ⟨L1C, 63/1000000⟩]).filter
    (fun seg => 1 < seg.length) = [[⟨L1C, 0⟩, ⟨L1C, 63/2000000⟩]] := by
  rw [comb_pred_eq]
  obtain ⟨hb1, hb2⟩ := L1C_band
  rw [interiorRuns_ttf _ _ _ _ (ring_mid_X0 hb1 hb2)
    (ring_mid_tooth2 hb1 hb2 (by norm_num) (by norm_num))
    (ring_mid_east hb1 hb2 (by norm_num))]
  simp

theorem comb_runs2_s1 : (interiorRuns (fun wp =>
    isPointInPolygonRings wp combPolygon.coordinates)
    [⟨(0:ℝ), 0⟩, ⟨(0:ℝ), 63/2000000⟩, ⟨(0:ℝ), 63/1000000⟩]).filter
    (fun seg => 1 < seg.length) =
    [[⟨(0:ℝ), 0⟩, ⟨(0:ℝ), 63/2000000⟩]] := by
  rw [comb_pred_eq]
  rw [interiorRuns_ttf _ _ _ _ ring_bot_X0
    (ring_bot_mid (by norm_num) (by norm_num)) ring_bot_east]
  simp

theorem comb_runs0_s2 : (interiorRuns (fun wp =>
    isPointInPolygonRings wp combPolygon.coordinates)
    [⟨L0C, 0⟩, ⟨L0C, 21/1000000⟩, ⟨L0C, 42/1000000⟩,
     ⟨L0C, 63/1000000⟩]).filter
    (fun seg => 1 < seg.length) = [] := by
  rw [comb_pred_eq]
  obtain ⟨hb1, hb2⟩ := L0C_band
  rw [interiorRuns_ffff _ _ _ _ _ (ring_top_X0 hb1 hb2)
    (ring_top_east hb1 hb2 (by norm_num))
    (ring_top_east hb1 hb2 (by norm_num))
    (ring_top_east hb1 hb2 (by norm_num))]
  rfl

theorem comb_runs1_s2 : (interiorRuns (fun wp =>
    isPointInPolygonRings wp combPolygon.coordinates)
    [⟨L1C, 0⟩, ⟨L1C, 21/1000000⟩, ⟨L1C, 42/1000000⟩,
     ⟨L1C, 63/1000000⟩]).filter
    (fun seg => 1 < seg.length) = [] := by
  rw [comb_pred_eq]
  obtain ⟨hb1, hb2⟩ := L1C_band
  rw [interiorRuns_tfff _ _ _ _ _ (ring_mid_X0 hb1 hb2)
    (ring_mid_tooth1gap hb1 hb2 (by norm_num) (by norm_num))
    (ring_mid_east hb1 hb2 (by norm_num))
    (ring_mid_east hb1 hb2 (by norm_num))]
  rfl

theorem comb_runs2_s2 : (interiorRuns (fun wp =>
    isPointInPolygonRings wp combPolygon.coordinates)
    [⟨(0:ℝ), 0⟩, ⟨(0:ℝ), 21/1000000⟩, ⟨(0:ℝ), 42/1000000⟩,
     ⟨(0:ℝ), 63/1000000⟩]).filter
    (fun seg => 1 < seg.length) =
    [[⟨(0:ℝ), 0⟩, ⟨(0:ℝ), 21/1000000⟩, ⟨(0:ℝ), 42/1000000⟩]] := by
  rw [comb_pred_eq]
  rw [interiorRuns_tttf _ _ _ _ _ ring_bot_X0
    (ring_bot_mid (by norm_num) (by norm_num))
    (ring_bot_mid (by norm_num) (by norm_num)) ring_bot_east]
  simp



theorem comb_line0_s1 :
    flightLineSegmentsAt combPolygon 90 (49/10) (covC/2) covC 3 0 = [] :=
  flightLineSegmentsAt_run combPolygon 90 (49/10) (covC/2) covC 3 0
    ⟨46/1000000, 63/2000000⟩ ⟨L0C, 0⟩ ⟨L0C, 63/1000000⟩ _ _
    comb_mid0 comb_clip0 comb_wps0_s1 comb_runs0_s1

theorem comb_line1_s1 :
    flightLineSegmentsAt combPolygon 90 (49/10) (covC/2) covC 3 1 =
      [[⟨L1C, 0⟩, ⟨L1C, 63/2000000⟩]] :=
  flightLineSegmentsAt_run combPolygon 90 (49/10) (covC/2) covC 3 1
    ⟨23/1000000, 63/2000000⟩ ⟨L1C, 0⟩ ⟨L1C, 63/1000000⟩ _ _
    comb_mid1 comb_clip1 comb_wps1_s1 comb_runs1_s1

theorem comb_line2_s1 :
    flightLineSegmentsAt combPolygon 90 (49/10) (covC/2) covC 3 2 =
      [[⟨(0:ℝ), 0⟩, ⟨(0:ℝ), 63/2000000⟩]] :=
  flightLineSegmentsAt_run combPolygon 90 (49/10) (covC/2) covC 3 2
    ⟨0, 63/2000000⟩ ⟨(0:ℝ), 0⟩ ⟨(0:ℝ), 63/1000000⟩ _ _
    comb_mid2 comb_clip2 comb_wps2_s1 comb_runs2_s1

theorem comb_line0_s2 :
    flightLineSegmentsAt combPolygon 90 (26/10) (covC/2) covC 3 0 = [] :=
  flightLineSegmentsAt_run combPolygon 90 (26/10) (covC/2) covC 3 0
    ⟨46/1000000, 63/2000000⟩ ⟨L0C, 0⟩ ⟨L0C, 63/1000000⟩ _ _
    comb_mid0 comb_clip0 comb_wps0_s2 comb_runs0_s2

theorem comb_line1_s2 :
    flightLineSegmentsAt combPolygon 90 (26/10) (covC/2) covC 3 1 = [] :=
  flightLineSegmentsAt_run combPolygon 90 (26/10) (covC/2) covC 3 1
    ⟨23/1000000, 63/2000000⟩ ⟨L1C, 0⟩ ⟨L1C, 63/1000000⟩ _ _
    comb_mid1 comb_clip1 comb_wps1_s2 comb_runs1_s2

theorem comb_line2_s2 :
    flightLineSegmentsAt combPolygon 90 (26/10) (covC/2) covC 3 2 =
      [[⟨(0:ℝ), 0⟩, ⟨(0:ℝ), 21/1000000⟩, ⟨(0:ℝ), 42/1000000⟩]] :=
  flightLineSegmentsAt_run combPolygon 90 (26/10) (covC/2) covC 3 2
    ⟨0, 63/2000000⟩ ⟨(0:ℝ), 0⟩ ⟨(0:ℝ), 63/1000000⟩ _ _
    comb_mid2 comb_clip2 comb_wps2_s2 comb_runs2_s2



theorem comb_numLines_s1 : numLinesFor covC (49/10) = 3 := by
  rw [numLinesFor]
  have hceil : ⌈covC / (49/10)⌉ = 2 := by
    rw [Int.ceil_eq_iff]
    obtain ⟨h1, h2⟩ := covC_bounds
    constructor
    · push_cast
      rw [lt_div_iff (by norm_num : (0:ℝ) < 49/10)]
      linarith
    · push_cast
      rw [div_le_iff (by norm_num : (0:ℝ) < 49/10)]
      linarith
  rw [hceil]
  norm_num

theorem comb_numLines_s2 : numLinesFor covC (26/10) = 3 := by
  rw [numLinesFor]
  have hceil : ⌈covC / (26/10)⌉ = 2 := by
    rw [Int.ceil_eq_iff]
    obtain ⟨h1, h2⟩ := covC_bounds
    constructor
    · push_cast
      rw [lt_div_iff (by norm_num : (0:ℝ) < 26/10)]
      linarith
    · push_cast
      rw [div_le_iff (by norm_num : (0:ℝ) < 26/10)]
      linarith
  rw [hceil]
  norm_num

theorem comb_gfl_s1 : generateFlightLines combPolygon 90 (49/10) =
    [[⟨L1C, 0⟩, ⟨L1C, 63/2000000⟩],
     [⟨(0:ℝ), 0⟩, ⟨(0:ℝ), 63/2000000⟩]] := by
  rw [generateFlightLines, covComb_eq]
  rw [if_neg (not_le.mpr (by linarith [covC_bounds.1] : (49/10:ℝ) < covC))]
  have hmax1 : max 1 (covC / 50) = 1 := max_eq_left (by
    rw [div_le_one (by norm_num : (0:ℝ) < 50)]
    linarith [covC_bounds.2])
  have hmax2 : max (49/10 : ℝ) 1 = 49/10 := max_eq_left (by norm_num)
  have heff : (if (1:ℤ) < 3 then covC / (((3:ℤ):ℝ) - 1) else covC) =
      covC / 2 := by
    rw [if_pos (by norm_num : (1:ℤ) < 3)]
    norm_num
  simp only [hmax1, hmax2, comb_numLines_s1, heff,
    show ((3:ℤ)).toNat = 3 from rfl, show List.range 3 = [0,1,2] from rfl,
    List.foldl_cons, List.foldl_nil, List.nil_append,
    comb_line0_s1, comb_line1_s1, comb_line2_s1]
  rfl

theorem comb_gfl_s2 : generateFlightLines combPolygon 90 (26/10) =
    [[⟨(0:ℝ), 0⟩, ⟨(0:ℝ), 21/1000000⟩, ⟨(0:ℝ), 42/1000000⟩]] := by
  rw [generateFlightLines, covComb_eq]
  rw [if_neg (not_le.mpr (by linarith [covC_bounds.1] : (26/10:ℝ) < covC))]
  have hmax1 : max 1 (covC / 50) = 1 := max_eq_left (by
    rw [div_le_one (by norm_num : (0:ℝ) < 50)]
    linarith [covC_bounds.2])
  have hmax2 : max (26/10 : ℝ) 1 = 26/10 := max_eq_left (by norm_num)
  have heff : (if (1:ℤ) < 3 then covC / (((3:ℤ):ℝ) - 1) else covC) =
      covC / 2 := by
    rw [if_pos (by norm_num : (1:ℤ) < 3)]
    norm_num
  simp only [hmax1, hmax2, comb_numLines_s2, heff,
    show ((3:ℤ)).toNat = 3 from rfl, show List.range 3 = [0,1,2] from rfl,
    List.foldl_cons, List.foldl_nil, List.nil_append,
    comb_line0_s2, comb_line1_s2, comb_line2_s2]

/-! ## Claim theorems -/

/-- C1: for every polygon, heading and line spacing, every waypoint of every
flight line produced by generateFlightLines satisfies the
polygon-with-holes interior test isPointInPolygonRings against the AOI
rings; and every waypoint produced by generateFlightLinesClippedByAOI
satisfies it against both the strip area's rings and the master AOI's
rings. -/
theorem flight_lines_inside_aoi :
    (∀ (p : Polygon) (heading lineSpacing : ℝ),
      allWaypointsInside (generateFlightLines p heading lineSpacing)
        p.coordinates) ∧
    (∀ (area masterAOI : Polygon) (heading lineSpacing : ℝ),
      allWaypointsInside
        (generateFlightLinesClippedByAOI area masterAOI heading lineSpacing)
        area.coordinates ∧
      allWaypointsInside
        (generateFlightLinesClippedByAOI area masterAOI heading lineSpacing)
        masterAOI.coordinates) :=
  ⟨generateFlightLines_inside, generateFlightLinesClippedByAOI_inside⟩

/-- C2 (code evaluated at the failing input): GSD = 1000 cm lies outside the
interval [0.5, 50] cm, yet generateFlightPlan raises no validation error for
it and returns a flight plan — the code's guard only rejects gsd > 5000 or
gsd < 0.5, contradicting the documented range 0.5–50 cm. -/
theorem gsd_1000_accepted_without_error :
    (¬ ((0.5 : ℝ) ≤ 1000 ∧ (1000 : ℝ) ≤ 50)) ∧
    ∀ md : MissionData, md.parameters.gsd = 1000 →
      ∃ plan, generateFlightPlan md = Except.ok plan := by
  constructor
  · norm_num
  · intro md h
    simp only [generateFlightPlan, h]
    rw [if_neg (by norm_num), if_neg (by norm_num)]
    exact ⟨_, rfl⟩

/-- C2 witness: a concrete mission-data record with gsd = 1000 on which
generateFlightPlan succeeds without a validation error. -/
theorem gsd_1000_accepted_without_error_witness :
    mdGsd1000.parameters.gsd = 1000 ∧
    ∃ plan, generateFlightPlan mdGsd1000 = Except.ok plan :=
  ⟨rfl, (gsd_1000_accepted_without_error.2) mdGsd1000 rfl⟩

/-- C4: generateFlightPlan is deterministic — it is a pure function of its
MissionData argument, so deeply equal inputs produce deeply equal
FlightPlan outputs (the source reads no clock and no randomness; its only
side effects are console logs). -/
theorem generateFlightPlan_deterministic (md1 md2 : MissionData)
    (h : md1 = md2) :
    generateFlightPlan md1 = generateFlightPlan md2 := by rw [h]

/-- C4 witness: determinism at a concrete input. -/
theorem generateFlightPlan_deterministic_witness :
    mdGsd1000 = mdGsd1000 ∧
    generateFlightPlan mdGsd1000 = generateFlightPlan mdGsd1000 :=
  ⟨rfl, generateFlightPlan_deterministic mdGsd1000 mdGsd1000 rfl⟩

/-- C5 (amended): when the line spacing is at least the polygon's
perpendicular coverage width, generateFlightLines returns exactly the
single-centerline fallback generateSingleCenterLine — which yields at most
one flight line, and can be empty when fewer than two densified waypoints
of the center line lie inside the polygon. -/
theorem narrow_area_single_center_line (p : Polygon) (heading lineSpacing : ℝ)
    (h : coverageWidthFor p heading ≤ lineSpacing) :
    generateFlightLines p heading lineSpacing =
      generateSingleCenterLine p heading ∧
    (generateSingleCenterLine p heading).length ≤ 1 := by
  constructor
  · rw [generateFlightLines, if_pos h]
  · simp only [generateSingleCenterLine]
    split <;> split <;> simp

/-- C5 witness: the amended claim at a concrete polygon and spacing. -/
theorem narrow_area_single_center_line_witness :
    coverageWidthFor flatPolygon 0 ≤ 1000000 ∧
    (generateFlightLines flatPolygon 0 1000000 =
       generateSingleCenterLine flatPolygon 0 ∧
     (generateSingleCenterLine flatPolygon 0).length ≤ 1) :=
  ⟨flat_cov_le, narrow_area_single_center_line flatPolygon 0 1000000 flat_cov_le⟩

/-- C5 counterexample: a polygon with three distinct vertices and a line
spacing (1,000,000 m) at least its coverage width for which
generateFlightLines returns zero flight lines, refuting the claim that the
fallback always returns a non-empty list. -/
theorem narrow_area_zero_lines_counterexample :
    coverageWidthFor flatPolygon 0 ≤ 1000000 ∧
    generateFlightLines flatPolygon 0 1000000 = [] :=
  ⟨flat_cov_le, flat_zero_lines⟩

/-- C7: for missions whose flight-line lists are non-empty with non-empty
coordinate lists, findOptimalTransition's distance equals the minimum of
the exit-to-entry distances over all four start/end configurations of the
from-mission crossed with all four configurations of the to-mission, and
its recorded exit/entry points attain that minimum. -/
theorem findOptimalTransition_min (i j : Mission)
    (hi : i.flightLines ≠ []) (hic : ∀ l ∈ i.flightLines, l.coordinates ≠ [])
    (hj : j.flightLines ≠ []) (hjc : ∀ l ∈ j.flightLines, l.coordinates ≠ []) :
    (getMissionStartEndOptions i).length = 4 ∧
    (getMissionStartEndOptions j).length = 4 ∧
    (∃ fo ∈ getMissionStartEndOptions i, ∃ oj ∈ getMissionStartEndOptions j,
      (findOptimalTransition i j).fromExitPoint = fo.endPoint ∧
      (findOptimalTransition i j).toEntryPoint = oj.startPoint ∧
      (findOptimalTransition i j).distance =
        (calculateDistance fo.endPoint oj.startPoint : WithTop ℝ)) ∧
    (∀ fo ∈ getMissionStartEndOptions i, ∀ oj ∈ getMissionStartEndOptions j,
      (findOptimalTransition i j).distance ≤
        (calculateDistance fo.endPoint oj.startPoint : WithTop ℝ)) := by
  have hleni := getMissionStartEndOptions_length i hi hic
  have hlenj := getMissionStartEndOptions_length j hj hjc
  have hne_i : getMissionStartEndOptions i ≠ [] := by
    intro hnil; rw [hnil] at hleni; simp at hleni
  have hne_j : getMissionStartEndOptions j ≠ [] := by
    intro hnil; rw [hnil] at hlenj; simp at hlenj
  obtain ⟨fo0, hfo0⟩ := List.exists_mem_of_ne_nil _ hne_i
  obtain ⟨oj0, hoj0⟩ := List.exists_mem_of_ne_nil _ hne_j
  have hchar := outer_fold_char i.index j.index (getMissionStartEndOptions j)
    (getMissionStartEndOptions i) ⟨i.index, j.index, ⊤, ⟨0, 0⟩, ⟨0, 0⟩⟩
  have hfold : findOptimalTransition i j =
      (getMissionStartEndOptions i).foldl
        (fun best fo =>
          (getMissionStartEndOptions j).foldl
            (transitionStep i.index j.index fo) best)
        ⟨i.index, j.index, ⊤, ⟨0, 0⟩, ⟨0, 0⟩⟩ := rfl
  rw [← hfold] at hchar
  refine ⟨hleni, hlenj, ?_, hchar.2.2⟩
  rcases hchar.1 with h | ⟨fo, hm1, oj, hm2, heq⟩
  · exfalso
    have hle := hchar.2.2 fo0 hfo0 oj0 hoj0
    rw [h] at hle
    exact absurd hle (not_le.mpr (WithTop.coe_lt_top _))
  · exact ⟨fo, hm1, oj, hm2, by rw [heq]; exact ⟨rfl, rfl, rfl⟩⟩

/-- C7 witness: the transition minimality at two concrete one-line
missions. -/
theorem findOptimalTransition_min_witness :
    missionA.flightLines ≠ [] ∧
    (∀ l ∈ missionA.flightLines, l.coordinates ≠ []) ∧
    missionB.flightLines ≠ [] ∧
    (∀ l ∈ missionB.flightLines, l.coordinates ≠ []) ∧
    ((getMissionStartEndOptions missionA).length = 4 ∧
     (getMissionStartEndOptions missionB).length = 4 ∧
     (∃ fo ∈ getMissionStartEndOptions missionA,
       ∃ oj ∈ getMissionStartEndOptions missionB,
        (findOptimalTransition missionA missionB).fromExitPoint = fo.endPoint ∧
        (findOptimalTransition missionA missionB).toEntryPoint = oj.startPoint ∧
        (findOptimalTransition missionA missionB).distance =
          (calculateDistance fo.endPoint oj.startPoint : WithTop ℝ)) ∧
     (∀ fo ∈ getMissionStartEndOptions missionA,
       ∀ oj ∈ getMissionStartEndOptions missionB,
        (findOptimalTransition missionA missionB).distance ≤
          (calculateDistance fo.endPoint oj.startPoint : WithTop ℝ))) := by
  have h1 : missionA.flightLines ≠ [] := by simp [missionA]
  have h2 : ∀ l ∈ missionA.flightLines, l.coordinates ≠ [] := by
    simp [missionA, lineA]
  have h3 : missionB.flightLines ≠ [] := by simp [missionB]
  have h4 : ∀ l ∈ missionB.flightLines, l.coordinates ≠ [] := by
    simp [missionB, lineB]
  exact ⟨h1, h2, h3, h4, findOptimalTransition_min missionA missionB h1 h2 h3 h4⟩

/-- C8: calculateTurnRadius with the default 25° bank angle returns
v²/(9.81·tan 25°) multiplied by the 1.2 safety factor and clamped into
[5 m, 50 m]; in particular the result always lies in [5, 50]. -/
theorem calculateTurnRadius_formula_and_clamp (v : ℝ) :
    calculateTurnRadius v =
      min (max (v ^ 2 / (9.81 * Real.tan (25 * Real.pi / 180)) * 1.2) 5) 50 ∧
    5 ≤ calculateTurnRadius v ∧ calculateTurnRadius v ≤ 50 := by
  refine ⟨rfl, ?_, ?_⟩
  · exact le_min (le_max_right _ _) (by norm_num)
  · exact min_le_right _ _

/-- C8 witness: the formula and bounds at a concrete speed. -/
theorem calculateTurnRadius_formula_and_clamp_witness :
    calculateTurnRadius 10 =
      min (max ((10 : ℝ) ^ 2 / (9.81 * Real.tan (25 * Real.pi / 180)) * 1.2) 5) 50 ∧
    5 ≤ calculateTurnRadius 10 ∧ calculateTurnRadius 10 ≤ 50 :=
  calculateTurnRadius_formula_and_clamp 10

/-- C9: generateOptimizedTurn normalizes the heading delta into
[-180, 180] (the two while loops subtract or add full turns of 360°), and
dispatches on it: strictly below 30° in absolute value gives the straight
two-point segment, strictly above 150° gives the U-turn arc builder, and
everything in between gives the smooth curved connector. -/
theorem generateOptimizedTurn_dispatch (l1e l2s : Coordinate)
    (h1 h2 r : ℝ) (p : Polygon) :
    (∃ k : ℤ, normLow (normHigh (h2 - h1)) = (h2 - h1) + 360 * k) ∧
    (-180 ≤ normLow (normHigh (h2 - h1)) ∧
      normLow (normHigh (h2 - h1)) ≤ 180) ∧
    generateOptimizedTurn l1e l2s h1 h2 r p =
      (if |normLow (normHigh (h2 - h1))| < 30 then [l1e, l2s]
       else if 150 < |normLow (normHigh (h2 - h1))| then
         generateUTurn l1e l2s r h1 p
       else generateSmoothTurn l1e l2s r h1 h2 p) := by
  refine ⟨?_, ⟨normLow_ge _, normLow_le _ (normHigh_le _)⟩, rfl⟩
  obtain ⟨k1, hk1⟩ := normHigh_mod (h2 - h1)
  obtain ⟨k2, hk2⟩ := normLow_mod (normHigh (h2 - h1))
  exact ⟨k1 + k2, by rw [hk2, hk1]; push_cast; ring⟩

/-- C10: every connector returned by generateOptimizedTurn is non-empty,
starts exactly at line1End and ends exactly at line2Start — the
polygon-interior filtering of intermediate arc and curve waypoints never
drops either endpoint. -/
theorem generateOptimizedTurn_endpoints (l1e l2s : Coordinate)
    (h1 h2 r : ℝ) (p : Polygon) :
    generateOptimizedTurn l1e l2s h1 h2 r p ≠ [] ∧
    (generateOptimizedTurn l1e l2s h1 h2 r p).head? = some l1e ∧
    (generateOptimizedTurn l1e l2s h1 h2 r p).getLast? = some l2s := by
  obtain ⟨mid, hm⟩ := generateOptimizedTurn_shape l1e l2s h1 h2 r p
  rw [hm]
  refine ⟨by simp, by simp, ?_⟩
  rw [← List.cons_append, List.getLast?_concat]

/-- C6 (amended): the raw parallel-line count of generateFlightLines
(numLinesFor over the adjusted spacing max(lineSpacing, max(1, cov/50)))
never decreases when the line spacing decreases; the number of emitted
interior segments, however, is not monotone (see the counterexample). -/
theorem raw_line_count_monotone (cov s1 s2 : ℝ) (hcov : 0 ≤ cov)
    (hs2 : 0 < s2) (hle : s2 ≤ s1) :
    numLinesFor cov (max s1 (max 1 (cov / 50))) ≤
      numLinesFor cov (max s2 (max 1 (cov / 50))) := by
  have hm : (0 : ℝ) < max 1 (cov / 50) := lt_max_of_lt_left one_pos
  have ha2 : (0 : ℝ) < max s2 (max 1 (cov / 50)) := lt_max_of_lt_left hs2
  have hadj : max s2 (max 1 (cov / 50)) ≤ max s1 (max 1 (cov / 50)) :=
    max_le_max hle (le_refl _)
  have hdiv : cov / max s1 (max 1 (cov / 50)) ≤ cov / max s2 (max 1 (cov / 50)) :=
    div_le_div_of_nonneg_left hcov ha2 hadj
  have hceil : ⌈cov / max s1 (max 1 (cov / 50))⌉ + 1 ≤
      ⌈cov / max s2 (max 1 (cov / 50))⌉ + 1 := by
    have := Int.ceil_le_ceil hdiv
    omega
  simp only [numLinesFor]
  split_ifs with hA hB
  · omega
  · omega
  · omega
  · omega

/-- C6 witness (amended claim): monotone raw line count at concrete
spacings. -/
theorem raw_line_count_monotone_witness :
    (0 : ℝ) ≤ 100 ∧ (0 : ℝ) < 5 ∧ (5 : ℝ) ≤ 10 ∧
    numLinesFor 100 (max 10 (max 1 (100 / 50))) ≤
      numLinesFor 100 (max 5 (max 1 (100 / 50))) :=
  ⟨by norm_num, by norm_num, by norm_num,
   raw_line_count_monotone 100 10 5 (by norm_num) (by norm_num) (by norm_num)⟩

/-- C6 counterexample: for the comb-shaped AOI at heading 90, the larger
line spacing 4.9 m produces two emitted flight-line segments while the
smaller spacing 2.6 m produces only one, so decreasing the spacing does
not yield at-least-as-many flight lines. -/
theorem line_count_not_monotone_counterexample :
    (0:ℝ) < 26/10 ∧ (26/10:ℝ) < 49/10 ∧
    (generateFlightLines combPolygon 90 (26/10)).length <
      (generateFlightLines combPolygon 90 (49/10)).length := by
  refine ⟨by norm_num, by norm_num, ?_⟩
  rw [comb_gfl_s1, comb_gfl_s2]
  norm_num

end Droner
